import Mathlib

/-!
# cmd/web/main.go: start-up and shutdown of the web server and the task runner

`main` is embedded as a transition system.  The four goroutines of the
program (main, the server goroutine of line 35, the two shutdown goroutines
of lines 79 and 84) each have a program counter that names the next statement
they execute; a schedule is a list of actions that says which goroutine takes
its next step, when an interrupt is delivered to the process and when time
passes.  Calls into the collaborators (`handlers`, `services`, `tasks`, echo,
`crypto/tls`) are events of the trace; what they return is given by the
environment `Env`.  A call that takes time (`StartServer`, `Tasks.Stop`,
`Web.Shutdown`, `c.Shutdown`) is two steps, the call and the return, so that a
schedule decides when, and whether, it returns, and what the other goroutines
do in between.
-/

set_option linter.unusedTactic false
set_option linter.unreachableTactic false
set_option linter.unnecessarySeqFocus false

namespace Gotester

/-! ## Go values -/

/-- Error values: the sentinel `http.ErrServerClosed`, any other error, and an
error that wraps another one (`Unwrap`). -/
inductive GoError where
  | ErrServerClosed
  | leaf (msg : String)
  | wrap (msg : String) (inner : GoError)
  deriving DecidableEq, Repr

/-- The chain walk of `errors.Is` for a non-nil error. -/
def GoError.is : GoError → GoError → Bool
  | .wrap m inner, target => (GoError.wrap m inner == target) || inner.is target
  | e, target => e == target

/-- `errors.Is(err, target)`; a nil `err` is not the (non-nil) target. -/
def errorsIs (err : Option GoError) (target : GoError) : Bool :=
  match err with
  | none => false
  | some e => e.is target

/-- `time.Second`, in nanoseconds (the unit of `time.Duration`). -/
def second : Nat := 1000000000

structure TLSSettings where
  Enabled : Bool
  Certificate : String
  Key : String
  deriving DecidableEq, Repr

structure HTTPConfig where
  Hostname : String
  Port : Nat
  ReadTimeout : Nat
  WriteTimeout : Nat
  IdleTimeout : Nat
  TLS : TLSSettings
  deriving DecidableEq, Repr

structure Config where
  HTTP : HTTPConfig
  deriving DecidableEq, Repr

/-- A loaded `tls.Certificate`. -/
structure Certificate where
  id : Nat
  deriving DecidableEq, Repr

/-- `tls.Config`, the one field main sets. -/
structure TLSConfig where
  Certificates : List Certificate
  deriving DecidableEq, Repr

/-- The handler of the server descriptor: `c.Web`. -/
inductive Handler where
  | web
  deriving DecidableEq, Repr

/-- `http.Server`, the fields main sets. -/
structure Server where
  Addr : String
  Handler : Handler
  ReadTimeout : Nat
  WriteTimeout : Nat
  IdleTimeout : Nat
  TLSConfig : Option TLSConfig
  deriving DecidableEq, Repr

/-- A context with a deadline, as `context.WithTimeout` returns it; the
deadline is an absolute time in nanoseconds. -/
structure Scope where
  deadline : Nat
  deriving DecidableEq, Repr

/-- `context.WithTimeout(context.Background(), d)` called at time `now`. -/
def withTimeout (now d : Nat) : Scope := { deadline := now + d }

inductive Signal where
  | Interrupt
  | Kill
  deriving DecidableEq, Repr

/-- The five places of main that call `log.Fatal` or `log.Fatalf`. -/
inductive FatalSite where
  | teardown
  | router
  | tlsLoad
  | serve
  | webShutdown
  deriving DecidableEq, Repr

/-! ## Environment: what the collaborators return -/

structure Env where
  Config : Config
  /-- The result of `handlers.BuildRouter(c)`. -/
  buildRouter : Option GoError
  /-- The function `tls.LoadX509KeyPair`. -/
  loadX509KeyPair : String → String → Except GoError Certificate
  /-- The error `c.Web.StartServer(&srv)` returns, when it returns. -/
  startServer : Option GoError
  /-- The error `c.Web.Shutdown(ctx)` returns, when it returns. -/
  webShutdown : Option GoError
  /-- The error `c.Shutdown()` returns. -/
  containerShutdown : Option GoError

/-! ## Events, program counters, state -/

inductive Event where
  | newContainer
  | buildRouter
  | goServer
  | loadX509KeyPair (cert key : String)
  | startServer (srv : Server)
  | startServerRet (err : Option GoError)
  | register
  | tasksStart
  | notify (sig : Signal)
  | sigint
  | recvQuit
  | withTimeout (ctx : Scope)
  | goStop
  | goShutdown
  | tasksStop (ctx : Scope)
  | tasksStopRet
  | webShutdown (ctx : Scope)
  | webShutdownRet (err : Option GoError)
  | wgDone
  | wgWaitRet
  | cancel
  | containerShutdown
  | containerShutdownRet (err : Option GoError)
  | logFatal (site : FatalSite)
  deriving DecidableEq, Repr

/-- The next statement of main. -/
inductive MainPc where
  | newContainer
  | buildRouter
  | goServer
  | register
  | tasksStart
  | notifyInterrupt
  | notifyKill
  | recvQuit
  | withTimeout
  | wgAdd
  | goStop
  | goShutdown
  | wgWait
  | deferCancel
  | deferShutdown
  | inShutdown
  | exit
  | done
  deriving DecidableEq, Repr

/-- The position of a statement of main in program order. -/
def MainPc.idx : MainPc → Nat
  | .newContainer => 0
  | .buildRouter => 1
  | .goServer => 2
  | .register => 3
  | .tasksStart => 4
  | .notifyInterrupt => 5
  | .notifyKill => 6
  | .recvQuit => 7
  | .withTimeout => 8
  | .wgAdd => 9
  | .goStop => 10
  | .goShutdown => 11
  | .wgWait => 12
  | .deferCancel => 13
  | .deferShutdown => 14
  | .inShutdown => 15
  | .exit => 16
  | .done => 17

/-- The next statement of the server goroutine (lines 35-58). -/
inductive ServerPc where
  | notStarted
  | begin
  | startServer
  | inStartServer
  | done
  deriving DecidableEq, Repr

/-- The position of a statement of the server goroutine in program order. -/
def ServerPc.idx : ServerPc → Nat
  | .notStarted => 0
  | .begin => 1
  | .startServer => 2
  | .inStartServer => 3
  | .done => 4

/-- The next statement of a shutdown goroutine (lines 79-82 and 84-89). -/
inductive WorkerPc where
  | notStarted
  | call
  | inCall
  | wgDone
  | done
  deriving DecidableEq, Repr

/-- The position of a statement of a shutdown goroutine in program order. -/
def WorkerPc.idx : WorkerPc → Nat
  | .notStarted => 0
  | .call => 1
  | .inCall => 2
  | .wgDone => 3
  | .done => 4

/-- How the process stands: still running, ended by `os.Exit` or by main
returning (`exited`), or ended by a signal nobody subscribed to. -/
inductive Outcome where
  | running
  | exited (code : Nat)
  | killed
  deriving DecidableEq, Repr

structure State where
  mainPc : MainPc
  serverPc : ServerPc
  stopPc : WorkerPc
  shutdownPc : WorkerPc
  /-- The local `srv` of the server goroutine. -/
  srv : Option Server
  /-- The local `ctx` of main, captured by both shutdown goroutines. -/
  ctx : Option Scope
  /-- Whether `signal.Notify(quit, os.Interrupt)` has run. -/
  notified : Bool
  /-- The number of signals buffered in `quit` (capacity 1). -/
  quit : Nat
  /-- The counter of the wait group. -/
  wg : Nat
  /-- The clock, in nanoseconds. -/
  now : Nat
  outcome : Outcome
  /-- What happened so far, oldest first, each event with its time. -/
  trace : List (Nat × Event)
  deriving DecidableEq, Repr

def State.init : State :=
  { mainPc := .newContainer, serverPc := .notStarted, stopPc := .notStarted,
    shutdownPc := .notStarted, srv := none, ctx := none, notified := false,
    quit := 0, wg := 0, now := 0, outcome := .running, trace := [] }

/-- The events of the trace, without their times. -/
def State.events (s : State) : List Event := s.trace.map Prod.snd

/-- Record an event at the current time. -/
def State.emit (s : State) (e : Event) : State :=
  { s with trace := s.trace ++ [(s.now, e)] }

/-- What `log.Fatal` and `log.Fatalf` do: print, then `os.Exit(1)`; the
process ends at once and no deferred function runs. -/
def State.fatal (s : State) (site : FatalSite) : State :=
  { s.emit (.logFatal site) with outcome := .exited 1 }

/-- The server descriptor of lines 36-42; `Addr` is
`fmt.Sprintf("%s:%d", Hostname, Port)`. -/
def mkServer (c : Config) : Server :=
  { Addr := c.HTTP.Hostname ++ ":" ++ toString c.HTTP.Port,
    Handler := .web,
    ReadTimeout := c.HTTP.ReadTimeout,
    WriteTimeout := c.HTTP.WriteTimeout,
    IdleTimeout := c.HTTP.IdleTimeout,
    TLSConfig := none }

/-! ## The goroutines -/

/-- One step of main (lines 20-92), one statement a step.  At `recvQuit`
main waits for a buffered signal (line 70); the scope is created by the next
statement (line 73), at the time that one runs.  At `wgWait` main waits for
the counter to be zero.  The deferred calls run when main returns, last
registered first: `cancel`, then the closure of lines 23-27, whose call of
`c.Shutdown()` is two steps, the call and the return; after a return without
error the closure ends, main has returned and the process ends with exit
code 0. -/
def mainStep (env : Env) (s : State) : State :=
  match s.mainPc with
  | .newContainer => { s.emit .newContainer with mainPc := .buildRouter }
  | .buildRouter =>
    match env.buildRouter with
    | some _ => (s.emit .buildRouter).fatal .router
    | none => { s.emit .buildRouter with mainPc := .goServer }
  | .goServer => { s.emit .goServer with mainPc := .register, serverPc := .begin }
  | .register => { s.emit .register with mainPc := .tasksStart }
  | .tasksStart => { s.emit .tasksStart with mainPc := .notifyInterrupt }
  | .notifyInterrupt =>
    { s.emit (.notify .Interrupt) with mainPc := .notifyKill, notified := true }
  | .notifyKill => { s.emit (.notify .Kill) with mainPc := .recvQuit }
  | .recvQuit =>
    if s.quit = 0 then s
    else { s.emit .recvQuit with mainPc := .withTimeout, quit := s.quit - 1 }
  | .withTimeout =>
    let ctx := withTimeout s.now (10 * second)
    { s.emit (.withTimeout ctx) with mainPc := .wgAdd, ctx := some ctx }
  | .wgAdd => { s with mainPc := .goStop, wg := s.wg + 2 }
  | .goStop => { s.emit .goStop with mainPc := .goShutdown, stopPc := .call }
  | .goShutdown => { s.emit .goShutdown with mainPc := .wgWait, shutdownPc := .call }
  | .wgWait =>
    if s.wg = 0 then { s.emit .wgWaitRet with mainPc := .deferCancel } else s
  | .deferCancel => { s.emit .cancel with mainPc := .deferShutdown }
  | .deferShutdown => { s.emit .containerShutdown with mainPc := .inShutdown }
  | .inShutdown =>
    let s1 := s.emit (.containerShutdownRet env.containerShutdown)
    match env.containerShutdown with
    | some _ => s1.fatal .teardown
    | none => { s1 with mainPc := .exit }
  | .exit => { s with mainPc := .done, outcome := .exited 0 }
  | .done => s

/-- One step of the server goroutine (lines 35-58). -/
def serverStep (env : Env) (s : State) : State :=
  match s.serverPc with
  | .notStarted => s
  | .begin =>
    let srv := mkServer env.Config
    if env.Config.HTTP.TLS.Enabled then
      let s1 := s.emit
        (.loadX509KeyPair env.Config.HTTP.TLS.Certificate env.Config.HTTP.TLS.Key)
      match env.loadX509KeyPair env.Config.HTTP.TLS.Certificate env.Config.HTTP.TLS.Key with
      | .error _ => s1.fatal .tlsLoad
      | .ok certs =>
        { s1 with
          srv := some { srv with TLSConfig := some { Certificates := [certs] } },
          serverPc := .startServer }
    else { s with srv := some srv, serverPc := .startServer }
  | .startServer =>
    match s.srv with
    | none => s
    | some srv => { s.emit (.startServer srv) with serverPc := .inStartServer }
  | .inStartServer =>
    let s1 := s.emit (.startServerRet env.startServer)
    if errorsIs env.startServer .ErrServerClosed then s1.fatal .serve
    else { s1 with serverPc := .done }
  | .done => s

/-- One step of the goroutine of lines 79-82: `c.Tasks.Stop(ctx)`, then the
deferred `wg.Done()`. -/
def stopStep (s : State) : State :=
  match s.stopPc with
  | .notStarted => s
  | .call =>
    match s.ctx with
    | none => s
    | some ctx => { s.emit (.tasksStop ctx) with stopPc := .inCall }
  | .inCall => { s.emit .tasksStopRet with stopPc := .wgDone }
  | .wgDone => { s.emit .wgDone with stopPc := .done, wg := s.wg - 1 }
  | .done => s

/-- One step of the goroutine of lines 84-89: `c.Web.Shutdown(ctx)`,
`log.Fatal` on an error, else the deferred `wg.Done()`. -/
def shutdownStep (env : Env) (s : State) : State :=
  match s.shutdownPc with
  | .notStarted => s
  | .call =>
    match s.ctx with
    | none => s
    | some ctx => { s.emit (.webShutdown ctx) with shutdownPc := .inCall }
  | .inCall =>
    let s1 := s.emit (.webShutdownRet env.webShutdown)
    match env.webShutdown with
    | some _ => s1.fatal .webShutdown
    | none => { s1 with shutdownPc := .wgDone }
  | .wgDone => { s.emit .wgDone with shutdownPc := .done, wg := s.wg - 1 }
  | .done => s

/-- The delivery of an interrupt to the process.  Once main has subscribed,
the `signal` package sends on `quit` without blocking: the signal is buffered
if the one slot is free and dropped otherwise.  Before that the default
disposition ends the process. -/
def interruptStep (s : State) : State :=
  if s.notified then
    if s.quit = 0 then { s.emit .sigint with quit := 1 } else s.emit .sigint
  else { s.emit .sigint with outcome := .killed }

/-! ## Schedules -/

inductive Action where
  | main
  | server
  | stop
  | shutdown
  | interrupt
  | tick (d : Nat)
  deriving DecidableEq, Repr

/-- One step of the process.  Nothing happens once the process has ended. -/
def step (env : Env) (s : State) (a : Action) : State :=
  match s.outcome with
  | .running =>
    match a with
    | .main => mainStep env s
    | .server => serverStep env s
    | .stop => stopStep s
    | .shutdown => shutdownStep env s
    | .interrupt => interruptStep s
    | .tick d => { s with now := s.now + d }
  | _ => s

/-- The state a schedule leads to from a given state. -/
def runFrom (env : Env) (s : State) (sched : List Action) : State :=
  sched.foldl (step env) s

/-- The state a schedule leads to from the start of the process. -/
def run (env : Env) (sched : List Action) : State :=
  runFrom env State.init sched

/-! ## What the claims speak about -/

/-- The server descriptor the server goroutine passes to `StartServer`: the
one of lines 36-42, with the loaded certificate when TLS is enabled; there is
none when the pair does not load. -/
def srvOf (env : Env) : Option Server :=
  if env.Config.HTTP.TLS.Enabled then
    match env.loadX509KeyPair env.Config.HTTP.TLS.Certificate env.Config.HTTP.TLS.Key with
    | .ok certs =>
      some { mkServer env.Config with TLSConfig := some { Certificates := [certs] } }
    | .error _ => none
  else some (mkServer env.Config)

/-- Whether the certificate and key of the configuration fail to load. -/
def Env.loadFails (env : Env) : Bool :=
  match env.loadX509KeyPair env.Config.HTTP.TLS.Certificate env.Config.HTTP.TLS.Key with
  | .ok _ => false
  | .error _ => true

/-- What an event of the trace says about the environment: a recorded
argument or result is the one of the environment. -/
def Event.ok (env : Env) : Event → Prop
  | .loadX509KeyPair c k =>
    env.Config.HTTP.TLS.Enabled = true ∧ c = env.Config.HTTP.TLS.Certificate ∧
      k = env.Config.HTTP.TLS.Key
  | .startServerRet r => r = env.startServer
  | .webShutdownRet r => r = env.webShutdown
  | .containerShutdownRet r => r = env.containerShutdown
  | _ => True

/-- Whether an event is the creation of a scope by `context.WithTimeout`. -/
def Event.isScope : Event → Bool
  | .withTimeout _ => true
  | _ => false

/-- Whether an event is a call of `c.Tasks.Stop`. -/
def Event.isTasksStop : Event → Bool
  | .tasksStop _ => true
  | _ => false

/-- Whether an event is a call of `c.Web.Shutdown`. -/
def Event.isWebShutdown : Event → Bool
  | .webShutdown _ => true
  | _ => false

/-! ## Invariants

Every state a schedule leads to satisfies the invariants below; each is true
at the start and kept by every step. -/

/-- Facts about main and about how the process ends, true in every state a
schedule leads to. -/
structure InvM (env : Env) (s : State) : Prop where
  goServer_mem : Event.goServer ∈ s.events ↔ 3 ≤ s.mainPc.idx
  register_mem : Event.register ∈ s.events ↔ 4 ≤ s.mainPc.idx
  tasksStart_mem : Event.tasksStart ∈ s.events ↔ 5 ≤ s.mainPc.idx
  recvQuit_mem : Event.recvQuit ∈ s.events ↔ 8 ≤ s.mainPc.idx
  wgWaitRet_mem : Event.wgWaitRet ∈ s.events ↔ 13 ≤ s.mainPc.idx
  cancel_mem : Event.cancel ∈ s.events ↔ 14 ≤ s.mainPc.idx
  teardown_mem : Event.containerShutdown ∈ s.events ↔ 15 ≤ s.mainPc.idx
  teardownRet_mem : Event.containerShutdownRet none ∈ s.events ↔ 16 ≤ s.mainPc.idx
  withTimeout_mem : ∀ c, Event.withTimeout c ∈ s.events ↔ some c = s.ctx
  recv_total : s.events.count Event.recvQuit = if 8 ≤ s.mainPc.idx then 1 else 0
  scope_total : s.events.countP Event.isScope = if 9 ≤ s.mainPc.idx then 1 else 0
  teardown_total :
    s.events.count Event.containerShutdown = if 15 ≤ s.mainPc.idx then 1 else 0
  ctx_none : s.ctx = none ↔ s.mainPc.idx ≤ 8
  router_ok : 2 ≤ s.mainPc.idx → env.buildRouter = none
  notified_iff : s.notified = true ↔ 6 ≤ s.mainPc.idx
  exit_zero : s.outcome = .exited 0 ↔ s.mainPc.idx = 17
  exit_codes : ∀ c, s.outcome = .exited c → c ≤ 1
  killed_idx : s.outcome = .killed → s.mainPc.idx ≤ 5
  fatal_exit : ∀ site, Event.logFatal site ∈ s.events → s.outcome = .exited 1
  router_fatal : Event.logFatal .router ∈ s.events → s.mainPc.idx ≤ 1
  teardown_fatal : Event.logFatal .teardown ∈ s.events → s.mainPc.idx = 15
  teardown_err : Event.logFatal .teardown ∈ s.events → env.containerShutdown ≠ none
  server_launched : 1 ≤ s.serverPc.idx ↔ 3 ≤ s.mainPc.idx
  stop_launched : 1 ≤ s.stopPc.idx ↔ 11 ≤ s.mainPc.idx
  shutdown_launched : 1 ≤ s.shutdownPc.idx ↔ 12 ≤ s.mainPc.idx
  quit_le : s.quit ≤ 1

/-- Facts about the server goroutine. -/
structure InvS (env : Env) (s : State) : Prop where
  srv_eq : 2 ≤ s.serverPc.idx → srvOf env = s.srv
  srv_some : 2 ≤ s.serverPc.idx → s.srv ≠ none
  start_mem : ∀ x, Event.startServer x ∈ s.events ↔ (3 ≤ s.serverPc.idx ∧ some x = s.srv)
  evs_ok : ∀ e ∈ s.events, e.ok env
  load_fail : Event.loadX509KeyPair env.Config.HTTP.TLS.Certificate env.Config.HTTP.TLS.Key
      ∈ s.events → env.loadFails = true →
    s.outcome = .exited 1 ∧ Event.logFatal .tlsLoad ∈ s.events
  ret_fatal : Event.startServerRet env.startServer ∈ s.events →
    errorsIs env.startServer .ErrServerClosed = true → Event.logFatal .serve ∈ s.events
  serve_fatal : Event.logFatal .serve ∈ s.events →
    errorsIs env.startServer .ErrServerClosed = true ∧
      Event.startServerRet env.startServer ∈ s.events

/-- Facts about the two shutdown goroutines and the wait group. -/
structure InvW (env : Env) (s : State) : Prop where
  wg_pre : s.mainPc.idx ≤ 9 → s.wg = 0
  wg_post : 10 ≤ s.mainPc.idx → s.wg + s.stopPc.idx / 4 + s.shutdownPc.idx / 4 = 2
  passed : 13 ≤ s.mainPc.idx → s.stopPc.idx = 4 ∧ s.shutdownPc.idx = 4
  stop_mem : ∀ c, Event.tasksStop c ∈ s.events ↔ (2 ≤ s.stopPc.idx ∧ some c = s.ctx)
  shut_mem : ∀ c, Event.webShutdown c ∈ s.events ↔ (2 ≤ s.shutdownPc.idx ∧ some c = s.ctx)
  stop_total : s.events.countP Event.isTasksStop = if 2 ≤ s.stopPc.idx then 1 else 0
  shut_total : s.events.countP Event.isWebShutdown = if 2 ≤ s.shutdownPc.idx then 1 else 0
  stopRet_mem : Event.tasksStopRet ∈ s.events ↔ 3 ≤ s.stopPc.idx
  shutRet_mem : Event.webShutdownRet none ∈ s.events ↔ 3 ≤ s.shutdownPc.idx
  shutRet_err : Event.webShutdownRet env.webShutdown ∈ s.events → env.webShutdown ≠ none →
    s.outcome = .exited 1 ∧ Event.logFatal .webShutdown ∈ s.events
  shut_err_pc : env.webShutdown ≠ none → s.shutdownPc.idx ≤ 2
  shut_fatal : Event.logFatal .webShutdown ∈ s.events → env.webShutdown ≠ none

/-- The invariants together. -/
structure Inv (env : Env) (s : State) : Prop where
  main : InvM env s
  server : InvS env s
  workers : InvW env s

/-- Facts about the times of the events. -/
structure InvT (s : State) : Prop where
  t_le : ∀ t e, (t, e) ∈ s.trace → t ≤ s.now
  recv_before : ∀ u c, (u, Event.withTimeout c) ∈ s.trace →
    ∀ t, (t, Event.recvQuit) ∈ s.trace → t ≤ u
  scope_time : ∀ t c, (t, Event.withTimeout c) ∈ s.trace ↔
    (some c = s.ctx ∧ c.deadline = t + 10 * second)
  wait_stop : ∀ w, (w, Event.wgWaitRet) ∈ s.trace →
    ∀ t, (t, Event.tasksStopRet) ∈ s.trace → t ≤ w
  wait_shut : ∀ w, (w, Event.wgWaitRet) ∈ s.trace →
    ∀ t r, (t, Event.webShutdownRet r) ∈ s.trace → t ≤ w

/-- In the events, every `tasksStart` has a `register` before it and none
after it. -/
def Ordered (s : State) : Prop :=
  ∀ pre post, s.events = pre ++ Event.tasksStart :: post →
    Event.register ∈ pre ∧ Event.register ∉ post

/-- The trace without the deliveries of interrupts. -/
def State.observed (s : State) : List (Nat × Event) :=
  s.trace.filter (fun x => decide (x.2 ≠ Event.sigint))

/-- Two states that differ at most in the deliveries of interrupts recorded in
the trace and, once main has received from `quit`, in what `quit` holds. -/
def SameButSignals (s1 s2 : State) : Prop :=
  s1.mainPc = s2.mainPc ∧ s1.serverPc = s2.serverPc ∧ s1.stopPc = s2.stopPc ∧
  s1.shutdownPc = s2.shutdownPc ∧ s1.srv = s2.srv ∧ s1.ctx = s2.ctx ∧
  s1.notified = s2.notified ∧ s1.wg = s2.wg ∧ s1.now = s2.now ∧
  s1.outcome = s2.outcome ∧ s1.observed = s2.observed ∧
  (s1.mainPc.idx ≤ 7 → s1.quit = s2.quit)

/-! ## Example environments and schedules -/

/-- A configuration without TLS. -/
def cfgPlain : Config :=
  { HTTP := { Hostname := "localhost", Port := 8000, ReadTimeout := 5 * second,
              WriteTimeout := 10 * second, IdleTimeout := 120 * second,
              TLS := { Enabled := false, Certificate := "", Key := "" } } }

/-- A configuration with TLS. -/
def cfgTLS : Config :=
  { HTTP := { Hostname := "localhost", Port := 8443, ReadTimeout := 5 * second,
              WriteTimeout := 10 * second, IdleTimeout := 120 * second,
              TLS := { Enabled := true, Certificate := "cert.pem", Key := "key.pem" } } }

/-- An environment in which every collaborator succeeds; the serve loop ends
with `http.ErrServerClosed`, as it does after `Shutdown`. -/
def envPlain : Env :=
  { Config := cfgPlain, buildRouter := none,
    loadX509KeyPair := fun _ _ => .error (.leaf "open : no such file or directory"),
    startServer := some .ErrServerClosed, webShutdown := none, containerShutdown := none }

/-- Main up to the receive on `quit` (lines 22-69). -/
def startup : List Action := [.main, .main, .main, .main, .main, .main, .main]

/-- The server goroutine up to the call of `StartServer`. -/
def serve : List Action := [.server, .server]

/-- Main from the creation of the scope (line 73) to the barrier (line 91),
then the first step of each shutdown goroutine: the calls of `Tasks.Stop` and
of `Web.Shutdown`. -/
def launch : List Action := [.main, .main, .main, .main, .stop, .shutdown]

/-- An interrupt, then the shutdown of lines 70-92: `Web.Shutdown` returns
after 2 seconds, `Tasks.Stop` after 9 seconds, then main returns. -/
def graceful : List Action :=
  [.interrupt, .main, .main, .main, .main, .main, .stop, .shutdown, .tick (2 * second),
   .shutdown, .shutdown, .tick (7 * second), .stop, .stop, .main, .main, .main, .main, .main]

/-- An environment in which building the router fails. -/
def envRouterError : Env :=
  { envPlain with buildRouter := some (.leaf "route already registered") }

/-- An environment with TLS whose certificate and key load. -/
def envTLS : Env :=
  { envPlain with Config := cfgTLS, loadX509KeyPair := fun _ _ => .ok { id := 1 } }

/-- An environment with TLS whose certificate and key do not load. -/
def envTLSBroken : Env := { envPlain with Config := cfgTLS }

/-- An environment in which the serve loop ends with an error other than
`http.ErrServerClosed`. -/
def envBindError : Env :=
  { envPlain with startServer := some (.leaf "listen tcp :8000: bind: address already in use") }

/-- An environment in which the server's `Shutdown` fails. -/
def envShutdownError : Env :=
  { envPlain with webShutdown := some (.leaf "context deadline exceeded") }

/-- An interrupt, then the shutdown up to the call of `Web.Shutdown`, upon
which `StartServer` returns in the server goroutine. -/
def closedByShutdown : List Action :=
  [.interrupt, .main, .main, .main, .main, .main, .shutdown, .server]

/-- An interrupt, then the shutdown up to the return of `Web.Shutdown`, while
`Tasks.Stop` is still running. -/
def shutdownFirst : List Action :=
  [.interrupt, .main, .main, .main, .main, .main, .stop, .shutdown, .tick (10 * second),
   .shutdown]

/-- An interrupt, main receiving it 3 seconds later, and the creation of the
scope one nanosecond after the receipt. -/
def lateScope : List Action := [.interrupt, .tick (3 * second), .main, .tick 1, .main]

/-! ## Lemmas -/

theorem step_of_ended (env : Env) (s : State) (a : Action) (h : s.outcome ≠ .running) :
    step env s a = s := by
  unfold step
  split
  · contradiction
  · rfl

@[simp] theorem events_mk (a b c d e f g h i j k) (tr : List (Nat × Event)) :
    State.events ⟨a, b, c, d, e, f, g, h, i, j, k, tr⟩ = tr.map Prod.snd := rfl

@[simp] theorem MainPc.idx_main_eqs :
    MainPc.newContainer.idx = 0 ∧ MainPc.buildRouter.idx = 1 ∧ MainPc.goServer.idx = 2 ∧
    MainPc.register.idx = 3 ∧ MainPc.tasksStart.idx = 4 ∧ MainPc.notifyInterrupt.idx = 5 ∧
    MainPc.notifyKill.idx = 6 ∧ MainPc.recvQuit.idx = 7 ∧ MainPc.withTimeout.idx = 8 ∧
    MainPc.wgAdd.idx = 9 ∧ MainPc.goStop.idx = 10 ∧ MainPc.goShutdown.idx = 11 ∧
    MainPc.wgWait.idx = 12 ∧ MainPc.deferCancel.idx = 13 ∧ MainPc.deferShutdown.idx = 14 ∧
    MainPc.inShutdown.idx = 15 ∧ MainPc.exit.idx = 16 ∧ MainPc.done.idx = 17 := by
  simp [MainPc.idx]

@[simp] theorem ServerPc.idx_server_eqs :
    ServerPc.notStarted.idx = 0 ∧ ServerPc.begin.idx = 1 ∧ ServerPc.startServer.idx = 2 ∧
    ServerPc.inStartServer.idx = 3 ∧ ServerPc.done.idx = 4 := by
  simp [ServerPc.idx]

@[simp] theorem WorkerPc.idx_worker_eqs :
    WorkerPc.notStarted.idx = 0 ∧ WorkerPc.call.idx = 1 ∧ WorkerPc.inCall.idx = 2 ∧
    WorkerPc.wgDone.idx = 3 ∧ WorkerPc.done.idx = 4 := by
  simp [WorkerPc.idx]

theorem WorkerPc.idx_le (p : WorkerPc) : p.idx ≤ 4 := by cases p <;> simp [WorkerPc.idx]

@[simp] theorem Event.isScope_eqs :
    Event.newContainer.isScope = false ∧ Event.buildRouter.isScope = false ∧
    Event.goServer.isScope = false ∧ (∀ x y, (Event.loadX509KeyPair x y).isScope = false) ∧
    (∀ x, (Event.startServer x).isScope = false) ∧
    (∀ x, (Event.startServerRet x).isScope = false) ∧ Event.register.isScope = false ∧
    Event.tasksStart.isScope = false ∧ (∀ x, (Event.notify x).isScope = false) ∧
    Event.sigint.isScope = false ∧ Event.recvQuit.isScope = false ∧
    (∀ x, (Event.withTimeout x).isScope = true) ∧ Event.goStop.isScope = false ∧
    Event.goShutdown.isScope = false ∧ (∀ x, (Event.tasksStop x).isScope = false) ∧
    Event.tasksStopRet.isScope = false ∧ (∀ x, (Event.webShutdown x).isScope = false) ∧
    (∀ x, (Event.webShutdownRet x).isScope = false) ∧ Event.wgDone.isScope = false ∧
    Event.wgWaitRet.isScope = false ∧ Event.cancel.isScope = false ∧
    Event.containerShutdown.isScope = false ∧
    (∀ x, (Event.containerShutdownRet x).isScope = false) ∧
    (∀ x, (Event.logFatal x).isScope = false) := by
  simp [Event.isScope]

@[simp] theorem Event.isTasksStop_eqs :
    Event.newContainer.isTasksStop = false ∧ Event.buildRouter.isTasksStop = false ∧
    Event.goServer.isTasksStop = false ∧
    (∀ x y, (Event.loadX509KeyPair x y).isTasksStop = false) ∧
    (∀ x, (Event.startServer x).isTasksStop = false) ∧
    (∀ x, (Event.startServerRet x).isTasksStop = false) ∧ Event.register.isTasksStop = false ∧
    Event.tasksStart.isTasksStop = false ∧ (∀ x, (Event.notify x).isTasksStop = false) ∧
    Event.sigint.isTasksStop = false ∧ Event.recvQuit.isTasksStop = false ∧
    (∀ x, (Event.withTimeout x).isTasksStop = false) ∧ Event.goStop.isTasksStop = false ∧
    Event.goShutdown.isTasksStop = false ∧ (∀ x, (Event.tasksStop x).isTasksStop = true) ∧
    Event.tasksStopRet.isTasksStop = false ∧ (∀ x, (Event.webShutdown x).isTasksStop = false) ∧
    (∀ x, (Event.webShutdownRet x).isTasksStop = false) ∧ Event.wgDone.isTasksStop = false ∧
    Event.wgWaitRet.isTasksStop = false ∧ Event.cancel.isTasksStop = false ∧
    Event.containerShutdown.isTasksStop = false ∧
    (∀ x, (Event.containerShutdownRet x).isTasksStop = false) ∧
    (∀ x, (Event.logFatal x).isTasksStop = false) := by
  simp [Event.isTasksStop]

@[simp] theorem Event.isWebShutdown_eqs :
    Event.newContainer.isWebShutdown = false ∧ Event.buildRouter.isWebShutdown = false ∧
    Event.goServer.isWebShutdown = false ∧
    (∀ x y, (Event.loadX509KeyPair x y).isWebShutdown = false) ∧
    (∀ x, (Event.startServer x).isWebShutdown = false) ∧
    (∀ x, (Event.startServerRet x).isWebShutdown = false) ∧
    Event.register.isWebShutdown = false ∧ Event.tasksStart.isWebShutdown = false ∧
    (∀ x, (Event.notify x).isWebShutdown = false) ∧ Event.sigint.isWebShutdown = false ∧
    Event.recvQuit.isWebShutdown = false ∧ (∀ x, (Event.withTimeout x).isWebShutdown = false) ∧
    Event.goStop.isWebShutdown = false ∧ Event.goShutdown.isWebShutdown = false ∧
    (∀ x, (Event.tasksStop x).isWebShutdown = false) ∧ Event.tasksStopRet.isWebShutdown = false ∧
    (∀ x, (Event.webShutdown x).isWebShutdown = true) ∧
    (∀ x, (Event.webShutdownRet x).isWebShutdown = false) ∧ Event.wgDone.isWebShutdown = false ∧
    Event.wgWaitRet.isWebShutdown = false ∧ Event.cancel.isWebShutdown = false ∧
    Event.containerShutdown.isWebShutdown = false ∧
    (∀ x, (Event.containerShutdownRet x).isWebShutdown = false) ∧
    (∀ x, (Event.logFatal x).isWebShutdown = false) := by
  simp [Event.isWebShutdown]

theorem invM_init (env : Env) : InvM env State.init := by
  constructor <;> simp [State.init, State.events]

set_option maxHeartbeats 4000000 in
theorem invM_step {env : Env} {s : State} (a : Action) (h : InvM env s) :
    InvM env (step env s a) := by
  by_cases ho : s.outcome = .running
  swap
  · rw [step_of_ended env s a ho]; exact h
  obtain ⟨mpc, spc, tpc, upc, srv, ctx, ntf, quit, wg, now, out, tr⟩ := s
  obtain ⟨cfg, br, load, ss, ws, cs⟩ := env
  obtain ⟨h1, h2, h3, h4, h5, h6, h7, h8, h9, h10, h11, h12, h13, h14, h15, h16, h17, h18,
    h19, h20, h21, h22, h23, h24, h25, h26⟩ := h
  simp only at ho
  subst ho
  simp only [events_mk] at *
  generalize hev : tr.map Prod.snd = ev at *
  cases a with
  | main =>
    cases mpc <;>
      simp only [step, mainStep, State.emit, State.fatal, events_mk, List.map_append,
        List.map_cons, List.map_nil, hev] <;>
      (try split) <;> simp at * <;> constructor <;>
      first
        | assumption
        | (simp [withTimeout, *]; done)
        | (simp [List.countP_append, List.count_append, *]; done)
        | (simp_all; done)
        | (simp_all; omega)
        | (intros; simp_all; done)
  | server =>
    cases spc <;>
      simp only [step, serverStep, State.emit, State.fatal, events_mk, List.map_append,
        List.map_cons, List.map_nil, hev] <;>
      (try split) <;> (try split) <;> simp at * <;> constructor <;>
      first
        | assumption
        | (simp [withTimeout, *]; done)
        | (simp [List.countP_append, List.count_append, *]; done)
        | (simp_all; done)
        | (simp_all; omega)
        | (intros; simp_all; done)
  | stop =>
    cases tpc <;>
      simp only [step, stopStep, State.emit, State.fatal, events_mk, List.map_append,
        List.map_cons, List.map_nil, hev] <;>
      (try split) <;> simp at * <;> constructor <;>
      first
        | assumption
        | (simp [withTimeout, *]; done)
        | (simp [List.countP_append, List.count_append, *]; done)
        | (simp_all; done)
        | (simp_all; omega)
        | (intros; simp_all; done)
  | shutdown =>
    cases upc <;>
      simp only [step, shutdownStep, State.emit, State.fatal, events_mk, List.map_append,
        List.map_cons, List.map_nil, hev] <;>
      (try split) <;> simp at * <;> constructor <;>
      first
        | assumption
        | (simp [withTimeout, *]; done)
        | (simp [List.countP_append, List.count_append, *]; done)
        | (simp_all; done)
        | (simp_all; omega)
        | (intros; simp_all; done)
  | interrupt =>
    simp only [step, interruptStep, State.emit, State.fatal, events_mk, List.map_append,
        List.map_cons, List.map_nil, hev] <;>
      (try split) <;> (try split) <;>
      simp at * <;> constructor <;>
      first
        | assumption
        | (simp [withTimeout, *]; done)
        | (simp [List.countP_append, List.count_append, *]; done)
        | (simp_all; done)
        | (simp_all; omega)
        | (intros; simp_all; done)
  | tick d =>
    simp only [step, events_mk, hev]
    simp at *
    constructor <;>
      first
        | assumption
        | (simp [withTimeout, *]; done)
        | (simp [List.countP_append, List.count_append, *]; done)
        | (simp_all; done)
        | (simp_all; omega)
        | (intros; simp_all; done)

@[simp] theorem Event.ok_eqs (env : Env) :
    (∀ c k, (Event.loadX509KeyPair c k).ok env ↔
      (env.Config.HTTP.TLS.Enabled = true ∧ c = env.Config.HTTP.TLS.Certificate ∧
        k = env.Config.HTTP.TLS.Key)) ∧
    (∀ r, (Event.startServerRet r).ok env ↔ r = env.startServer) ∧
    (∀ r, (Event.webShutdownRet r).ok env ↔ r = env.webShutdown) ∧
    (∀ r, (Event.containerShutdownRet r).ok env ↔ r = env.containerShutdown) ∧
    Event.newContainer.ok env ∧ Event.buildRouter.ok env ∧ Event.goServer.ok env ∧
    (∀ x, (Event.startServer x).ok env) ∧ Event.register.ok env ∧ Event.tasksStart.ok env ∧
    (∀ x, (Event.notify x).ok env) ∧ Event.sigint.ok env ∧ Event.recvQuit.ok env ∧
    (∀ x, (Event.withTimeout x).ok env) ∧ Event.goStop.ok env ∧ Event.goShutdown.ok env ∧
    (∀ x, (Event.tasksStop x).ok env) ∧ Event.tasksStopRet.ok env ∧
    (∀ x, (Event.webShutdown x).ok env) ∧ Event.wgDone.ok env ∧ Event.wgWaitRet.ok env ∧
    Event.cancel.ok env ∧ Event.containerShutdown.ok env ∧ (∀ x, (Event.logFatal x).ok env) := by
  simp [Event.ok]

theorem invS_init (env : Env) : InvS env State.init := by
  constructor <;> simp [State.init, State.events]

set_option maxHeartbeats 4000000 in
theorem invS_step {env : Env} {s : State} (a : Action) (hm : InvM env s) (h : InvS env s) :
    InvS env (step env s a) := by
  by_cases ho : s.outcome = .running
  swap
  · rw [step_of_ended env s a ho]; exact h
  have hl := hm.server_launched
  clear hm
  obtain ⟨mpc, spc, tpc, upc, srv, ctx, ntf, quit, wg, now, out, tr⟩ := s
  obtain ⟨h1, h2, h3, h4, h5, h6, h7⟩ := h
  simp only at ho
  subst ho
  simp only [events_mk] at *
  generalize hev : tr.map Prod.snd = ev at *
  cases a with
  | main =>
    cases mpc <;>
      simp only [step, mainStep, State.emit, State.fatal, events_mk, List.map_append,
        List.map_cons, List.map_nil, hev] <;>
      (try split) <;> simp at * <;> constructor <;>
      first
        | assumption
        | (simp [hev]; assumption)
        | (simp [*]; done)
        | (simp [or_imp, forall_and, hev]; assumption)
        | (simp [or_imp, forall_and, hev, *]; done)
        | (simp [or_imp, forall_and, hev, *]; assumption)
        | (simp_all; done)
  | server =>
    cases spc <;>
      simp only [step, serverStep, State.emit, State.fatal, events_mk, List.map_append,
        List.map_cons, List.map_nil, hev] <;>
      (try split) <;> (try split) <;>
      simp at * <;> constructor <;>
      first
        | assumption
        | (simp [hev]; assumption)
        | (simp [*]; done)
        | (simp [or_imp, forall_and, hev]; assumption)
        | (simp [or_imp, forall_and, hev, *]; done)
        | (simp [or_imp, forall_and, hev, *]; assumption)
        | (simp_all; done)
        | (intros; simp_all; done)
        | (simp [srvOf, Env.loadFails, *]; done)
  | stop =>
    cases tpc <;>
      simp only [step, stopStep, State.emit, State.fatal, events_mk, List.map_append,
        List.map_cons, List.map_nil, hev] <;>
      (try split) <;> simp at * <;> constructor <;>
      first
        | assumption
        | (simp [hev]; assumption)
        | (simp [*]; done)
        | (simp [or_imp, forall_and, hev]; assumption)
  | shutdown =>
    cases upc <;>
      simp only [step, shutdownStep, State.emit, State.fatal, events_mk, List.map_append,
        List.map_cons, List.map_nil, hev] <;>
      (try split) <;> simp at * <;> constructor <;>
      first
        | assumption
        | (simp [hev]; assumption)
        | (simp [*]; done)
        | (simp [or_imp, forall_and, hev]; assumption)
        | (simp [or_imp, forall_and, hev, *]; done)
        | (simp [or_imp, forall_and, hev, *]; assumption)
        | (simp_all; done)
  | interrupt =>
    simp only [step, interruptStep, State.emit, State.fatal, events_mk, List.map_append,
        List.map_cons, List.map_nil, hev] <;>
      (try split) <;> (try split) <;>
      simp at * <;> constructor <;>
      first
        | assumption
        | (simp [hev]; assumption)
        | (simp [*]; done)
        | (simp [or_imp, forall_and, hev]; assumption)
  | tick d =>
    simp only [step, events_mk, hev]
    simp at *
    constructor <;>
      first
        | assumption
        | (simp [hev]; assumption)

theorem invW_init (env : Env) : InvW env State.init := by
  constructor <;> simp [State.init, State.events]

set_option maxHeartbeats 4000000 in
theorem invW_step {env : Env} {s : State} (a : Action) (hm : InvM env s) (h : InvW env s) :
    InvW env (step env s a) := by
  by_cases ho : s.outcome = .running
  swap
  · rw [step_of_ended env s a ho]; exact h
  have hl1 := hm.stop_launched
  have hl2 := hm.shutdown_launched
  have hl3 := hm.ctx_none
  have hb1 := WorkerPc.idx_le s.stopPc
  have hb2 := WorkerPc.idx_le s.shutdownPc
  clear hm
  obtain ⟨mpc, spc, tpc, upc, srv, ctx, ntf, quit, wg, now, out, tr⟩ := s
  obtain ⟨h1, h2, h3, h4, h5, h6, h7, h8, h9, h10, h11, h12⟩ := h
  simp only at ho
  subst ho
  simp only [events_mk] at *
  generalize hev : tr.map Prod.snd = ev at *
  cases a with
  | main =>
    cases mpc <;>
      simp only [step, mainStep, State.emit, State.fatal, events_mk, List.map_append,
        List.map_cons, List.map_nil, hev] <;>
      (try split) <;> simp at * <;> constructor <;>
      first
        | assumption
        | (simp [hev]; assumption)
        | (simp [List.countP_append, *]; done)
        | (simp_all; done)
        | (intros; simp_all; done)
        | (simp_all; omega)
  | server =>
    cases spc <;>
      simp only [step, serverStep, State.emit, State.fatal, events_mk, List.map_append,
        List.map_cons, List.map_nil, hev] <;>
      (try split) <;> (try split) <;> simp at * <;> constructor <;>
      first
        | assumption
        | (simp [hev]; assumption)
        | (simp [List.countP_append, *]; done)
        | (simp_all; done)
        | (intros; simp_all; done)
        | (simp_all; omega)
  | stop =>
    cases tpc <;>
      simp only [step, stopStep, State.emit, State.fatal, events_mk, List.map_append,
        List.map_cons, List.map_nil, hev] <;>
      (try split) <;> simp at * <;> constructor <;>
      first
        | assumption
        | (simp [hev]; assumption)
        | (simp [List.countP_append, *]; done)
        | (simp_all; done)
        | (intros; simp_all; done)
        | (simp_all; omega)
  | shutdown =>
    cases upc <;>
      simp only [step, shutdownStep, State.emit, State.fatal, events_mk, List.map_append,
        List.map_cons, List.map_nil, hev] <;>
      (try split) <;> (try split) <;> simp at * <;> constructor <;>
      first
        | assumption
        | (simp [hev]; assumption)
        | (simp [List.countP_append, *]; done)
        | (simp_all; done)
        | (intros; simp_all; done)
        | (simp_all; omega)
  | interrupt =>
    simp only [step, interruptStep, State.emit, State.fatal, events_mk, List.map_append,
        List.map_cons, List.map_nil, hev] <;>
      (try split) <;> (try split) <;>
      simp at * <;> constructor <;>
      first
        | assumption
        | (simp [hev]; assumption)
        | (simp [List.countP_append, *]; done)
        | (simp_all; done)
        | (intros; simp_all; done)
        | (simp_all; omega)
  | tick d =>
    simp only [step, events_mk, hev]
    simp at *
    constructor <;>
      first
        | assumption
        | (simp [hev]; assumption)
        | (simp [List.countP_append, *]; done)
        | (simp_all; done)
        | (intros; simp_all; done)
        | (simp_all; omega)

theorem inv_init (env : Env) : Inv env State.init :=
  ⟨invM_init env, invS_init env, invW_init env⟩

theorem inv_step {env : Env} {s : State} (a : Action) (h : Inv env s) :
    Inv env (step env s a) :=
  ⟨invM_step a h.main, invS_step a h.main h.server, invW_step a h.main h.workers⟩

theorem inv_runFrom {env : Env} (sched : List Action) :
    ∀ {s : State}, Inv env s → Inv env (runFrom env s sched) := by
  induction sched with
  | nil => intro s h; exact h
  | cons a rest ih => intro s h; exact ih (inv_step a h)

theorem inv_run (env : Env) (sched : List Action) : Inv env (run env sched) :=
  inv_runFrom sched (inv_init env)

theorem mem_events {s : State} {e : Event} : e ∈ s.events ↔ ∃ t, (t, e) ∈ s.trace := by
  simp [State.events]

theorem invT_init : InvT State.init := by
  constructor <;> simp [State.init]

set_option maxHeartbeats 4000000 in
theorem invT_step {env : Env} {s : State} (a : Action) (hi : Inv env s) (h : InvT s) :
    InvT (step env s a) := by
  by_cases ho : s.outcome = .running
  swap
  · rw [step_of_ended env s a ho]; exact h
  have hl3 := hi.main.ctx_none
  have hwg : ∀ w, (w, Event.wgWaitRet) ∈ s.trace → s.stopPc.idx = 4 ∧ s.shutdownPc.idx = 4 :=
    fun w hw => hi.workers.passed (hi.main.wgWaitRet_mem.mp (mem_events.mpr ⟨w, hw⟩))
  clear hi
  obtain ⟨mpc, spc, tpc, upc, srv, ctx, ntf, quit, wg, now, out, tr⟩ := s
  obtain ⟨h1, h2, h3, h4, h5⟩ := h
  simp only at ho
  subst ho
  cases a with
  | main =>
    cases mpc <;>
      simp only [step, mainStep, State.emit, State.fatal] <;>
      (try split) <;> simp at * <;> constructor <;>
      first
        | assumption
        | (simp; assumption)
        | (simp [*]; done)
        | (simp [or_imp, forall_and]; assumption)
        | (simp [withTimeout, *]; done)
        | (simp_all; done)
        | (intros; simp_all; done)
        | (intro u c hu t ht; simp at hu ht; rcases hu with hu | hu
           · exact h2 u c hu t ht
           · obtain ⟨rfl, rfl⟩ := hu; exact h1 _ _ ht)
        | (intro w hw t ht; simp at hw ht; rcases hw with hw | hw
           · exact h4 w hw t ht
           · subst hw; exact h1 _ _ ht)
        | (intro w hw t r ht; simp at hw ht; rcases hw with hw | hw
           · exact h5 w hw t r ht
           · subst hw; exact h1 _ _ ht)
        | (intro t c; simp [withTimeout, *]; constructor
           · rintro ⟨rfl, rfl⟩; simp
           · rintro ⟨rfl, hc⟩; simpa using hc.symm)
        | (intro t e hte; have := h1 t e hte; simp only; omega)
  | server =>
    cases spc <;>
      simp only [step, serverStep, State.emit, State.fatal] <;>
      (try split) <;> (try split) <;> simp at * <;> constructor <;>
      first
        | assumption
        | (simp; assumption)
        | (simp [*]; done)
        | (simp [or_imp, forall_and]; assumption)
        | (simp [withTimeout, *]; done)
        | (simp_all; done)
        | (intros; simp_all; done)
        | (intro u c hu t ht; simp at hu ht; rcases hu with hu | hu
           · exact h2 u c hu t ht
           · obtain ⟨rfl, rfl⟩ := hu; exact h1 _ _ ht)
        | (intro w hw t ht; simp at hw ht; rcases hw with hw | hw
           · exact h4 w hw t ht
           · subst hw; exact h1 _ _ ht)
        | (intro w hw t r ht; simp at hw ht; rcases hw with hw | hw
           · exact h5 w hw t r ht
           · subst hw; exact h1 _ _ ht)
        | (intro t c; simp [withTimeout, *]; constructor
           · rintro ⟨rfl, rfl⟩; simp
           · rintro ⟨rfl, hc⟩; simpa using hc.symm)
        | (intro t e hte; have := h1 t e hte; simp only; omega)
  | stop =>
    cases tpc <;>
      simp only [step, stopStep, State.emit, State.fatal] <;>
      (try split) <;> simp at * <;> constructor <;>
      first
        | assumption
        | (simp; assumption)
        | (simp [*]; done)
        | (simp [or_imp, forall_and]; assumption)
        | (simp [withTimeout, *]; done)
        | (simp_all; done)
        | (intros; simp_all; done)
        | (intro u c hu t ht; simp at hu ht; rcases hu with hu | hu
           · exact h2 u c hu t ht
           · obtain ⟨rfl, rfl⟩ := hu; exact h1 _ _ ht)
        | (intro w hw t ht; simp at hw ht; rcases hw with hw | hw
           · exact h4 w hw t ht
           · subst hw; exact h1 _ _ ht)
        | (intro w hw t r ht; simp at hw ht; rcases hw with hw | hw
           · exact h5 w hw t r ht
           · subst hw; exact h1 _ _ ht)
        | (intro t c; simp [withTimeout, *]; constructor
           · rintro ⟨rfl, rfl⟩; simp
           · rintro ⟨rfl, hc⟩; simpa using hc.symm)
        | (intro t e hte; have := h1 t e hte; simp only; omega)
  | shutdown =>
    cases upc <;>
      simp only [step, shutdownStep, State.emit, State.fatal] <;>
      (try split) <;> (try split) <;> simp at * <;> constructor <;>
      first
        | assumption
        | (simp; assumption)
        | (simp [*]; done)
        | (simp [or_imp, forall_and]; assumption)
        | (simp [withTimeout, *]; done)
        | (simp_all; done)
        | (intros; simp_all; done)
        | (intro u c hu t ht; simp at hu ht; rcases hu with hu | hu
           · exact h2 u c hu t ht
           · obtain ⟨rfl, rfl⟩ := hu; exact h1 _ _ ht)
        | (intro w hw t ht; simp at hw ht; rcases hw with hw | hw
           · exact h4 w hw t ht
           · subst hw; exact h1 _ _ ht)
        | (intro w hw t r ht; simp at hw ht; rcases hw with hw | hw
           · exact h5 w hw t r ht
           · subst hw; exact h1 _ _ ht)
        | (intro t c; simp [withTimeout, *]; constructor
           · rintro ⟨rfl, rfl⟩; simp
           · rintro ⟨rfl, hc⟩; simpa using hc.symm)
        | (intro t e hte; have := h1 t e hte; simp only; omega)
  | interrupt =>
    simp only [step, interruptStep, State.emit, State.fatal] <;>
      (try split) <;> (try split) <;>
      simp at * <;> constructor <;>
      first
        | assumption
        | (simp; assumption)
        | (simp [*]; done)
        | (simp [or_imp, forall_and]; assumption)
        | (simp [withTimeout, *]; done)
        | (simp_all; done)
        | (intros; simp_all; done)
        | (intro u c hu t ht; simp at hu ht; rcases hu with hu | hu
           · exact h2 u c hu t ht
           · obtain ⟨rfl, rfl⟩ := hu; exact h1 _ _ ht)
        | (intro w hw t ht; simp at hw ht; rcases hw with hw | hw
           · exact h4 w hw t ht
           · subst hw; exact h1 _ _ ht)
        | (intro w hw t r ht; simp at hw ht; rcases hw with hw | hw
           · exact h5 w hw t r ht
           · subst hw; exact h1 _ _ ht)
        | (intro t c; simp [withTimeout, *]; constructor
           · rintro ⟨rfl, rfl⟩; simp
           · rintro ⟨rfl, hc⟩; simpa using hc.symm)
        | (intro t e hte; have := h1 t e hte; simp only; omega)
  | tick d =>
    simp only [step]
    simp at *
    constructor <;>
      first
        | assumption
        | (simp; assumption)
        | (simp [*]; done)
        | (simp [or_imp, forall_and]; assumption)
        | (simp [withTimeout, *]; done)
        | (simp_all; done)
        | (intros; simp_all; done)
        | (intro u c hu t ht; simp at hu ht; rcases hu with hu | hu
           · exact h2 u c hu t ht
           · obtain ⟨rfl, rfl⟩ := hu; exact h1 _ _ ht)
        | (intro w hw t ht; simp at hw ht; rcases hw with hw | hw
           · exact h4 w hw t ht
           · subst hw; exact h1 _ _ ht)
        | (intro w hw t r ht; simp at hw ht; rcases hw with hw | hw
           · exact h5 w hw t r ht
           · subst hw; exact h1 _ _ ht)
        | (intro t c; simp [withTimeout, *]; constructor
           · rintro ⟨rfl, rfl⟩; simp
           · rintro ⟨rfl, hc⟩; simpa using hc.symm)
        | (intro t e hte; have := h1 t e hte; simp only; omega)

theorem invT_runFrom {env : Env} (sched : List Action) :
    ∀ {s : State}, Inv env s → InvT s → InvT (runFrom env s sched) := by
  induction sched with
  | nil => intro s _ h; exact h
  | cons a rest ih => intro s hi h; exact ih (inv_step a hi) (invT_step a hi h)

theorem invT_run (env : Env) (sched : List Action) : InvT (run env sched) :=
  invT_runFrom sched (inv_init env) invT_init

theorem runFrom_of_ended (env : Env) (sched : List Action) :
    ∀ (s : State), s.outcome ≠ .running → runFrom env s sched = s := by
  induction sched with
  | nil => intro s _; rfl
  | cons a rest ih =>
    intro s h
    show runFrom env (step env s a) rest = s
    rw [step_of_ended env s a h]
    exact ih s h

theorem runFrom_append (env : Env) (s : State) (l1 l2 : List Action) :
    runFrom env s (l1 ++ l2) = runFrom env (runFrom env s l1) l2 := by
  simp [runFrom, List.foldl_append]

/-- Appending events keeps "every `b` has an `a` before it and none after it",
when an appended `a` comes with no `b` and an appended `b` comes alone and
after an `a`. -/
theorem order_append {α : Type} (a b : α) (l l' : List α)
    (ih : ∀ pre post, l = pre ++ b :: post → a ∈ pre ∧ a ∉ post)
    (h1 : a ∈ l' → b ∉ l ∧ b ∉ l') (h2 : b ∈ l' → a ∈ l ∧ l' = [b]) :
    ∀ pre post, l ++ l' = pre ++ b :: post → a ∈ pre ∧ a ∉ post := by
  intro pre post h
  rcases List.append_eq_append_iff.mp h with ⟨m, rfl, hm⟩ | ⟨m, rfl, hm⟩
  · -- the `b` lies in `l'`
    have hb : b ∈ l' := by rw [hm]; simp
    obtain ⟨hal, rfl⟩ := h2 hb
    cases m with
    | nil =>
      simp at hm
      subst hm
      simpa using hal
    | cons x m' => simp at hm
  · cases m with
    | nil =>
      simp at hm
      have hb : b ∈ l' := by rw [← hm]; simp
      obtain ⟨hal, rfl⟩ := h2 hb
      simp at hm
      subst hm
      simpa using hal
    | cons x m' =>
      simp at hm
      obtain ⟨rfl, rfl⟩ := hm
      obtain ⟨hpre, hpost⟩ := ih pre m' rfl
      refine ⟨hpre, ?_⟩
      intro hmem
      rcases List.mem_append.mp hmem with h' | h'
      · exact hpost h'
      · exact (h1 h').1 (by simp)

theorem ordered_init : Ordered State.init := by
  intro pre post h
  simp [State.init, State.events] at h

set_option maxHeartbeats 4000000 in
theorem ordered_step {env : Env} {s : State} (a : Action) (hm : InvM env s) (h : Ordered s) :
    Ordered (step env s a) := by
  by_cases ho : s.outcome = .running
  swap
  · rw [step_of_ended env s a ho]; exact h
  have h2 := hm.register_mem
  have h3 := hm.tasksStart_mem
  clear hm
  obtain ⟨mpc, spc, tpc, upc, srv, ctx, ntf, quit, wg, now, out, tr⟩ := s
  simp only at ho
  subst ho
  unfold Ordered at *
  simp only [events_mk] at *
  generalize hev : tr.map Prod.snd = ev at *
  cases a with
  | main =>
    cases mpc <;>
      simp only [step, mainStep, State.emit, State.fatal] <;>
      (try split) <;>
      (try simp only [events_mk, List.map_append, List.map_cons, List.map_nil, hev,
        List.append_assoc, List.singleton_append]) <;>
      (try simp at h2 h3) <;>
      first
        | exact h
        | (apply order_append _ _ _ _ h <;> simp [*])
  | server =>
    cases spc <;>
      simp only [step, serverStep, State.emit, State.fatal] <;>
      (try split) <;> (try split) <;>
      (try simp only [events_mk, List.map_append, List.map_cons, List.map_nil, hev,
        List.append_assoc, List.singleton_append]) <;>
      (try simp at h2 h3) <;>
      first
        | exact h
        | (apply order_append _ _ _ _ h <;> simp [*])
  | stop =>
    cases tpc <;>
      simp only [step, stopStep, State.emit, State.fatal] <;>
      (try split) <;>
      (try simp only [events_mk, List.map_append, List.map_cons, List.map_nil, hev,
        List.append_assoc, List.singleton_append]) <;>
      (try simp at h2 h3) <;>
      first
        | exact h
        | (apply order_append _ _ _ _ h <;> simp [*])
  | shutdown =>
    cases upc <;>
      simp only [step, shutdownStep, State.emit, State.fatal] <;>
      (try split) <;> (try split) <;>
      (try simp only [events_mk, List.map_append, List.map_cons, List.map_nil, hev,
        List.append_assoc, List.singleton_append]) <;>
      (try simp at h2 h3) <;>
      first
        | exact h
        | (apply order_append _ _ _ _ h <;> simp [*])
  | interrupt =>
    simp only [step, interruptStep, State.emit, State.fatal] <;>
      (try split) <;> (try split) <;>
      (try simp only [events_mk, List.map_append, List.map_cons, List.map_nil, hev,
        List.append_assoc, List.singleton_append]) <;>
      (try simp at h2 h3) <;>
      first
        | exact h
        | (apply order_append _ _ _ _ h <;> simp [*])
  | tick d =>
    simp only [step, events_mk, hev]
    exact h

theorem ordered_runFrom {env : Env} (sched : List Action) :
    ∀ {s : State}, Inv env s → Ordered s → Ordered (runFrom env s sched) := by
  induction sched with
  | nil => intro s _ h; exact h
  | cons a rest ih => intro s hi h; exact ih (inv_step a hi) (ordered_step a hi.main h)

theorem sameButSignals_refl (s : State) : SameButSignals s s := by
  simp [SameButSignals]

set_option maxHeartbeats 4000000 in
theorem sameButSignals_step (env : Env) (a : Action) {s1 s2 : State}
    (h : SameButSignals s1 s2) : SameButSignals (step env s1 a) (step env s2 a) := by
  obtain ⟨mpc, spc, tpc, upc, srv, ctx, ntf, quit, wg, now, out, tr⟩ := s1
  obtain ⟨mpc2, spc2, tpc2, upc2, srv2, ctx2, ntf2, quit2, wg2, now2, out2, tr2⟩ := s2
  simp only [SameButSignals, State.observed] at h
  obtain ⟨rfl, rfl, rfl, rfl, rfl, rfl, rfl, rfl, rfl, rfl, hobs, hq⟩ := h
  cases out with
  | exited c => exact ⟨rfl, rfl, rfl, rfl, rfl, rfl, rfl, rfl, rfl, rfl, hobs, hq⟩
  | killed => exact ⟨rfl, rfl, rfl, rfl, rfl, rfl, rfl, rfl, rfl, rfl, hobs, hq⟩
  | running =>
    cases a with
    | main =>
      cases mpc <;> simp at hq <;>
        simp only [step, mainStep, State.emit, State.fatal] <;>
        (try split) <;> (try split) <;>
        simp_all [SameButSignals, State.observed, List.filter_append]
    | server =>
      cases spc <;>
        simp only [step, serverStep, State.emit, State.fatal] <;>
        (try split) <;> (try split) <;>
        simp_all [SameButSignals, State.observed, List.filter_append]
    | stop =>
      cases tpc <;>
        simp only [step, stopStep, State.emit, State.fatal] <;>
        (try split) <;>
        simp_all [SameButSignals, State.observed, List.filter_append]
    | shutdown =>
      cases upc <;>
        simp only [step, shutdownStep, State.emit, State.fatal] <;>
        (try split) <;> (try split) <;>
        simp_all [SameButSignals, State.observed, List.filter_append]
    | interrupt =>
      simp only [step, interruptStep, State.emit, State.fatal]
      by_cases hn : ntf = true <;> by_cases h1 : quit = 0 <;> by_cases h2 : quit2 = 0 <;>
        simp_all [SameButSignals, State.observed, List.filter_append]
    | tick d =>
      simp_all [step, SameButSignals, State.observed]

theorem sameButSignals_runFrom (env : Env) (sched : List Action) :
    ∀ {s1 s2 : State}, SameButSignals s1 s2 →
      SameButSignals (runFrom env s1 sched) (runFrom env s2 sched) := by
  induction sched with
  | nil => intro s1 s2 h; exact h
  | cons a rest ih => intro s1 s2 h; exact ih (sameButSignals_step env a h)

theorem sameButSignals_interrupt (env : Env) (s : State) (hn : s.notified = true)
    (hq : s.mainPc.idx ≤ 7 → s.quit ≠ 0) : SameButSignals (step env s .interrupt) s := by
  by_cases ho : s.outcome = .running
  swap
  · rw [step_of_ended env s _ ho]; exact sameButSignals_refl s
  obtain ⟨mpc, spc, tpc, upc, srv, ctx, ntf, quit, wg, now, out, tr⟩ := s
  simp only at ho hn hq
  subst ho hn
  simp only [step, interruptStep, State.emit]
  by_cases h1 : quit = 0 <;> simp_all [SameButSignals, State.observed, List.filter_append]

theorem step_mainPc_of_ne (env : Env) (s : State) (a : Action) (h : a ≠ .main) :
    (step env s a).mainPc = s.mainPc := by
  by_cases ho : s.outcome = .running
  swap
  · rw [step_of_ended env s a ho]
  obtain ⟨mpc, spc, tpc, upc, srv, ctx, ntf, quit, wg, now, out, tr⟩ := s
  simp only at ho
  subst ho
  cases a with
  | main => exact absurd rfl h
  | server =>
    cases spc <;> simp only [step, serverStep, State.emit, State.fatal] <;>
      (try split) <;> (try split) <;> rfl
  | stop =>
    cases tpc <;> simp only [step, stopStep, State.emit, State.fatal] <;>
      (try split) <;> rfl
  | shutdown =>
    cases upc <;> simp only [step, shutdownStep, State.emit, State.fatal] <;>
      (try split) <;> (try split) <;> rfl
  | interrupt =>
    simp only [step, interruptStep, State.emit]
    (repeat' split) <;> rfl
  | tick d => rfl

theorem step_killed_of_ne (env : Env) (s : State) (a : Action) (h : a ≠ .interrupt)
    (hk : (step env s a).outcome = .killed) : s.outcome = .killed := by
  by_cases ho : s.outcome = .running
  swap
  · rwa [step_of_ended env s a ho] at hk
  obtain ⟨mpc, spc, tpc, upc, srv, ctx, ntf, quit, wg, now, out, tr⟩ := s
  simp only at ho
  subst ho
  revert hk
  cases a with
  | main =>
    cases mpc <;> simp only [step, mainStep, State.emit, State.fatal] <;>
      (try split) <;> simp
  | server =>
    cases spc <;> simp only [step, serverStep, State.emit, State.fatal] <;>
      (try split) <;> (try split) <;> simp
  | stop =>
    cases tpc <;> simp only [step, stopStep, State.emit, State.fatal] <;>
      (try split) <;> simp
  | shutdown =>
    cases upc <;> simp only [step, shutdownStep, State.emit, State.fatal] <;>
      (try split) <;> (try split) <;> simp
  | interrupt => exact absurd rfl h
  | tick d => simp [step]

theorem runFrom_killed (env : Env) (sched : List Action) (h : Action.interrupt ∉ sched) :
    ∀ (s : State), (runFrom env s sched).outcome = .killed → s.outcome = .killed := by
  induction sched with
  | nil => intro s hk; exact hk
  | cons a rest ih =>
    intro s hk
    have ha : a ≠ .interrupt := fun e => h (by simp [e])
    have hr : Action.interrupt ∉ rest := fun e => h (by simp [e])
    exact step_killed_of_ne env s a ha (ih hr _ hk)

theorem router_error_progress (env : Env) (e : GoError) (he : env.buildRouter = some e)
    (sched : List Action) :
    ∀ (s : State), s.mainPc.idx ≤ 1 → (runFrom env s sched).outcome = .running →
      (runFrom env s sched).mainPc.idx = s.mainPc.idx + sched.count .main := by
  induction sched with
  | nil => intro s _ _; simp [runFrom]
  | cons a rest ih =>
    intro s hs hrun
    have hstep : runFrom env s (a :: rest) = runFrom env (step env s a) rest := rfl
    rw [hstep] at hrun ⊢
    by_cases ho : s.outcome = .running
    swap
    · rw [step_of_ended env s a ho, runFrom_of_ended env rest s ho] at hrun
      exact absurd hrun ho
    by_cases ha : a = .main
    · subst ha
      obtain ⟨mpc, spc, tpc, upc, srv, ctx, ntf, quit, wg, now, out, tr⟩ := s
      simp only at ho hs
      subst ho
      cases mpc <;> simp at hs
      · have h1 := ih (step env _ .main) (by simp [step, mainStep, State.emit]) hrun
        rw [h1]
        simp [step, mainStep, State.emit]
        omega
      · have hend : (step env ⟨.buildRouter, spc, tpc, upc, srv, ctx, ntf, quit, wg, now,
            .running, tr⟩ .main).outcome ≠ .running := by
          simp [step, mainStep, State.emit, State.fatal, he]
        rw [runFrom_of_ended env rest _ hend] at hrun
        exact absurd hrun hend
    · have h1 := ih (step env s a) (by rw [step_mainPc_of_ne env s a ha]; exact hs) hrun
      rw [h1, step_mainPc_of_ne env s a ha, List.count_cons_of_ne (Ne.symm ha)]

theorem WorkerPc.eq_done_of_idx {p : WorkerPc} (h : p.idx = 4) : p = .done := by
  cases p <;> simp at h
  rfl

/-- A step of main from the creation of the scope on: main moves on, up to
the barrier, and the process keeps running unless main is past the barrier. -/
theorem main_push (env : Env) (s : State) (k : Nat) (h8 : 8 ≤ s.mainPc.idx)
    (hr : s.outcome = .running ∨ 13 ≤ s.mainPc.idx) (hk : k ≤ s.mainPc.idx) :
    8 ≤ (step env s .main).mainPc.idx ∧
      ((step env s .main).outcome = .running ∨ 13 ≤ (step env s .main).mainPc.idx) ∧
      (k + 1 ≤ (step env s .main).mainPc.idx ∨ 12 ≤ (step env s .main).mainPc.idx) := by
  by_cases ho : s.outcome = .running
  swap
  · rw [step_of_ended env s _ ho]
    have h13 : 13 ≤ s.mainPc.idx := by
      rcases hr with h | h
      · exact absurd h ho
      · exact h
    exact ⟨h8, Or.inr h13, Or.inr (by omega)⟩
  obtain ⟨mpc, spc, tpc, upc, srv, ctx, ntf, quit, wg, now, out, tr⟩ := s
  simp only at ho h8 hk
  subst ho
  cases mpc <;> simp at h8 hk <;>
    simp only [step, mainStep, State.emit, State.fatal] <;>
    (try split) <;> simp <;> omega

/-- The first step of the goroutine of lines 79-82, once main is at the
barrier: `Tasks.Stop` has been called. -/
theorem stop_push (env : Env) (s : State) (hi : Inv env s) (h12 : 12 ≤ s.mainPc.idx)
    (hr : s.outcome = .running ∨ 13 ≤ s.mainPc.idx) :
    2 ≤ (step env s .stop).stopPc.idx ∧ (step env s .stop).mainPc = s.mainPc ∧
      ((step env s .stop).outcome = .running ∨ 13 ≤ s.mainPc.idx) := by
  by_cases ho : s.outcome = .running
  swap
  · rw [step_of_ended env s _ ho]
    have h13 : 13 ≤ s.mainPc.idx := by
      rcases hr with h | h
      · exact absurd h ho
      · exact h
    have := (hi.workers.passed h13).1
    exact ⟨by omega, rfl, Or.inr h13⟩
  have hl := hi.main.stop_launched.mpr (by omega)
  have hc : s.ctx ≠ none := fun h => by
    have := hi.main.ctx_none.mp h
    omega
  clear hi
  obtain ⟨mpc, spc, tpc, upc, srv, ctx, ntf, quit, wg, now, out, tr⟩ := s
  simp only at ho hl hc
  subst ho
  cases ctx with
  | none => exact absurd rfl hc
  | some c =>
    cases tpc <;> simp at hl <;> simp [step, stopStep, State.emit]

/-- The first step of the goroutine of lines 84-89, once main is at the
barrier: `Web.Shutdown` has been called. -/
theorem shutdown_push (env : Env) (s : State) (hi : Inv env s) (h12 : 12 ≤ s.mainPc.idx)
    (hr : s.outcome = .running ∨ 13 ≤ s.mainPc.idx) :
    2 ≤ (step env s .shutdown).shutdownPc.idx ∧
      (step env s .shutdown).stopPc = s.stopPc ∧
      (step env s .shutdown).mainPc = s.mainPc := by
  by_cases ho : s.outcome = .running
  swap
  · rw [step_of_ended env s _ ho]
    have h13 : 13 ≤ s.mainPc.idx := by
      rcases hr with h | h
      · exact absurd h ho
      · exact h
    have := (hi.workers.passed h13).2
    exact ⟨by omega, rfl, rfl⟩
  have hl := hi.main.shutdown_launched.mpr (by omega)
  have hc : s.ctx ≠ none := fun h => by
    have := hi.main.ctx_none.mp h
    omega
  clear hi
  obtain ⟨mpc, spc, tpc, upc, srv, ctx, ntf, quit, wg, now, out, tr⟩ := s
  simp only at ho hl hc
  subst ho
  cases ctx with
  | none => exact absurd rfl hc
  | some c =>
    cases upc <;> simp at hl <;> simp only [step, shutdownStep, State.emit, State.fatal] <;>
      (try split) <;> simp

/-- From a running state in which main has received from `quit`, the schedule
`launch` leads to a state in which the scope exists and both `Tasks.Stop` and
`Web.Shutdown` have been called. -/
theorem launch_calls (env : Env) (s : State) (hi : Inv env s) (h8 : 8 ≤ s.mainPc.idx)
    (hr : s.outcome = .running) :
    9 ≤ (runFrom env s launch).mainPc.idx ∧ 2 ≤ (runFrom env s launch).stopPc.idx ∧
      2 ≤ (runFrom env s launch).shutdownPc.idx := by
  have e : runFrom env s launch =
      step env (step env (step env (step env (step env (step env s .main) .main) .main)
        .main) .stop) .shutdown := rfl
  rw [e]
  obtain ⟨a1, b1, c1⟩ := main_push env s 8 h8 (Or.inl hr) h8
  have i1 := @inv_step env _ .main hi
  obtain ⟨a2, b2, c2⟩ := main_push env _ 9 a1 b1 (by omega)
  have i2 := @inv_step env _ .main i1
  obtain ⟨a3, b3, c3⟩ := main_push env _ 10 a2 b2 (by omega)
  have i3 := @inv_step env _ .main i2
  obtain ⟨a4, b4, c4⟩ := main_push env _ 11 a3 b3 (by omega)
  have i4 := @inv_step env _ .main i3
  have h12 : 12 ≤ (step env (step env (step env (step env s .main) .main) .main)
      .main).mainPc.idx := by omega
  obtain ⟨a5, b5, c5⟩ := stop_push env _ i4 h12 b4
  have i5 := @inv_step env _ .stop i4
  obtain ⟨a6, b6, c6⟩ := shutdown_push env _ i5 (by rw [b5]; exact h12) (by rw [b5]; exact c5)
  refine ⟨?_, ?_, a6⟩
  · rw [c6, b5]; omega
  · rw [b6]; exact a5

/-- From a running state in which main has received from `quit`, the schedule
`launch` leads to a state in which exactly one scope has been created and
`Tasks.Stop` and `Web.Shutdown` have each been called exactly once, with that
scope. -/
theorem launch_events (env : Env) (s : State) (hi : Inv env s) (h8 : 8 ≤ s.mainPc.idx)
    (hr : s.outcome = .running) :
    ∃ c, (runFrom env s launch).ctx = some c ∧
      Event.withTimeout c ∈ (runFrom env s launch).events ∧
      Event.tasksStop c ∈ (runFrom env s launch).events ∧
      Event.webShutdown c ∈ (runFrom env s launch).events ∧
      (runFrom env s launch).events.count Event.recvQuit = 1 ∧
      (runFrom env s launch).events.countP Event.isScope = 1 ∧
      (runFrom env s launch).events.countP Event.isTasksStop = 1 ∧
      (runFrom env s launch).events.countP Event.isWebShutdown = 1 := by
  obtain ⟨h9, hs, hu⟩ := launch_calls env s hi h8 hr
  have hi' := @inv_runFrom env launch _ hi
  have hctx : (runFrom env s launch).ctx ≠ none := fun h => by
    have := hi'.main.ctx_none.mp h
    omega
  obtain ⟨c, hc⟩ := Option.ne_none_iff_exists.mp hctx
  refine ⟨c, hc.symm, (hi'.main.withTimeout_mem c).mpr hc, (hi'.workers.stop_mem c).mpr ⟨hs, hc⟩,
    (hi'.workers.shut_mem c).mpr ⟨hu, hc⟩, ?_, ?_, ?_, ?_⟩
  · rw [hi'.main.recv_total, if_pos (by omega)]
  · rw [hi'.main.scope_total, if_pos h9]
  · rw [hi'.workers.stop_total, if_pos hs]
  · rw [hi'.workers.shut_total, if_pos hu]

/-- The delivery of an interrupt after main has subscribed leaves a signal in
`quit` and changes neither main nor how the process stands. -/
theorem interrupt_buffers (env : Env) (s : State) (hn : s.notified = true)
    (hr : s.outcome = .running) :
    (step env s .interrupt).quit ≠ 0 ∧ (step env s .interrupt).notified = true ∧
      (step env s .interrupt).outcome = .running ∧
      (step env s .interrupt).mainPc = s.mainPc := by
  obtain ⟨mpc, spc, tpc, upc, srv, ctx, ntf, quit, wg, now, out, tr⟩ := s
  simp only at hn hr
  subst hn hr
  simp only [step, interruptStep, State.emit]
  by_cases hq : quit = 0 <;> simp [hq]

/-- One or more interrupts delivered after main has subscribed leave a signal
in `quit` and change neither main nor how the process stands. -/
theorem interrupts_buffer (env : Env) (n : Nat) :
    ∀ (s : State), s.notified = true → s.outcome = .running →
      (runFrom env s (List.replicate (n + 1) .interrupt)).quit ≠ 0 ∧
      (runFrom env s (List.replicate (n + 1) .interrupt)).notified = true ∧
      (runFrom env s (List.replicate (n + 1) .interrupt)).outcome = .running ∧
      (runFrom env s (List.replicate (n + 1) .interrupt)).mainPc = s.mainPc := by
  induction n with
  | zero => intro s hn hr; exact interrupt_buffers env s hn hr
  | succ m ih =>
    intro s hn hr
    obtain ⟨_, h2, h3, h4⟩ := interrupt_buffers env s hn hr
    have e : runFrom env s (List.replicate (m + 1 + 1) .interrupt) =
        runFrom env (step env s .interrupt) (List.replicate (m + 1) .interrupt) := rfl
    rw [e]
    obtain ⟨g1, g2, g3, g4⟩ := ih _ h2 h3
    exact ⟨g1, g2, g3, g4.trans h4⟩

/-- Main at the receive with a signal in `quit` receives it. -/
theorem recv_step (env : Env) (s : State) (hr : s.outcome = .running)
    (hpc : s.mainPc = .recvQuit) (hq : s.quit ≠ 0) :
    (step env s .main).mainPc = .withTimeout ∧ (step env s .main).outcome = .running ∧
      (step env s .main).ctx = s.ctx ∧ (step env s .main).quit = s.quit - 1 := by
  obtain ⟨mpc, spc, tpc, upc, srv, ctx, ntf, quit, wg, now, out, tr⟩ := s
  simp only at hr hpc hq
  subst hr hpc
  simp [step, mainStep, State.emit, hq]

/-- A step changes the number of executions of `c.Shutdown()` only when it is
main, returning, at the deferred closure of lines 23-27; that step does not
end the process. -/
theorem teardown_step (env : Env) (s : State) (a : Action) :
    (step env s a).events.count Event.containerShutdown =
        s.events.count Event.containerShutdown ∨
      (a = .main ∧ s.mainPc = .deferShutdown ∧ s.outcome = .running ∧
        (step env s a).outcome = .running) := by
  by_cases ho : s.outcome = .running
  swap
  · rw [step_of_ended env s a ho]; exact Or.inl rfl
  obtain ⟨mpc, spc, tpc, upc, srv, ctx, ntf, quit, wg, now, out, tr⟩ := s
  simp only at ho
  subst ho
  cases a with
  | main =>
    cases mpc <;> simp only [step, mainStep, State.emit, State.fatal] <;>
      (try split) <;> simp [State.events, List.count_append]
  | server =>
    cases spc <;> simp only [step, serverStep, State.emit, State.fatal] <;>
      (try split) <;> (try split) <;> simp [State.events, List.count_append]
  | stop =>
    cases tpc <;> simp only [step, stopStep, State.emit, State.fatal] <;>
      (try split) <;> simp [State.events, List.count_append]
  | shutdown =>
    cases upc <;> simp only [step, shutdownStep, State.emit, State.fatal] <;>
      (try split) <;> (try split) <;> simp [State.events, List.count_append]
  | interrupt =>
    simp only [step, interruptStep, State.emit]
    (repeat' split) <;> simp [State.events, List.count_append]
  | tick d => simp [step, State.events]

/-- Main returning: from the deferred closure of lines 23-27 the teardown is
called, and its result decides how the process ends. -/
theorem teardown_progress (env : Env) (s : State) (hr : s.outcome = .running)
    (hpc : s.mainPc = .deferShutdown) :
    Event.containerShutdown ∈ (step env s .main).events ∧
      (env.containerShutdown = none →
        (runFrom env s [.main, .main, .main]).outcome = .exited 0) ∧
      (env.containerShutdown ≠ none →
        (runFrom env s [.main, .main]).outcome = .exited 1 ∧
          Event.logFatal .teardown ∈ (runFrom env s [.main, .main]).events) := by
  obtain ⟨mpc, spc, tpc, upc, srv, ctx, ntf, quit, wg, now, out, tr⟩ := s
  simp only at hr hpc
  subst hr hpc
  refine ⟨by simp [step, mainStep, State.emit, State.events], ?_, ?_⟩
  · intro h
    simp [runFrom, step, mainStep, State.emit, State.fatal, h]
  · intro h
    cases hc : env.containerShutdown with
    | none => exact absurd hc h
    | some e => simp [runFrom, step, mainStep, State.emit, State.fatal, State.events, hc]

/-! ## The claims -/

/-- Claim C1 fails on the code, both ways: when `StartServer` returns
`http.ErrServerClosed`, here after `Web.Shutdown` was called, the server
goroutine calls `log.Fatalf` and the process ends with exit code 1; when it
returns another error, here a failed bind, the goroutine ends silently and
the process keeps running without a server. -/
theorem C1_serve_error_check_inverted :
    Event.startServerRet (some .ErrServerClosed) ∈
        (run envPlain (startup ++ serve ++ closedByShutdown)).events ∧
      Event.logFatal .serve ∈ (run envPlain (startup ++ serve ++ closedByShutdown)).events ∧
      (run envPlain (startup ++ serve ++ closedByShutdown)).outcome = .exited 1 ∧
      Event.startServerRet envBindError.startServer ∈
        (run envBindError (startup ++ serve ++ [.server])).events ∧
      Event.logFatal .serve ∉ (run envBindError (startup ++ serve ++ [.server])).events ∧
      (run envBindError (startup ++ serve ++ [.server])).serverPc = .done ∧
      (run envBindError (startup ++ serve ++ [.server])).outcome = .running := by
  decide

/-- Claim C2 fails on a fatal path: when building the router fails, the
process ends with exit code 1 by `log.Fatalf` and `c.Shutdown()` has not been
executed. -/
theorem C2_fatal_path_skips_teardown :
    (run envRouterError [.main, .main]).outcome = .exited 1 ∧
      Event.logFatal .router ∈ (run envRouterError [.main, .main]).events ∧
      (run envRouterError [.main, .main]).events.count Event.containerShutdown = 0 := by
  decide

/-- Claim C2 as the code has it: in every execution `c.Shutdown()` is
executed at most once; when the process has ended with exit code 0 it has
been executed exactly once and has returned without error, after the barrier
and after `cancel`; it is only ever executed after the barrier has released
and `cancel` has run; when the router build or the server shutdown fails, or
after the `log.Fatalf` of the router build or the `log.Fatal` of the server
shutdown, it has not been executed at all; a step that ends the process with
exit code 1 does not execute it, and the only step that executes it is main
at the deferred closure of lines 23-27; there main does call it, and the
process then ends with exit code 0 when it returns without error and with
exit code 1 by the `log.Fatal` of line 25 otherwise. -/
theorem C2_teardown_on_return_only (env : Env) (sched : List Action) :
    (run env sched).events.count Event.containerShutdown ≤ 1 ∧
      ((run env sched).outcome = .exited 0 →
        (run env sched).events.count Event.containerShutdown = 1 ∧
          Event.containerShutdownRet none ∈ (run env sched).events ∧
          Event.cancel ∈ (run env sched).events ∧
          Event.wgWaitRet ∈ (run env sched).events) ∧
      (Event.containerShutdown ∈ (run env sched).events →
        Event.wgWaitRet ∈ (run env sched).events ∧ Event.cancel ∈ (run env sched).events) ∧
      (env.buildRouter ≠ none ∨ env.webShutdown ≠ none ∨
          Event.logFatal .router ∈ (run env sched).events ∨
          Event.logFatal .webShutdown ∈ (run env sched).events →
        Event.containerShutdown ∉ (run env sched).events) ∧
      (∀ a, (step env (run env sched) a).outcome = .exited 1 →
        (step env (run env sched) a).events.count Event.containerShutdown =
          (run env sched).events.count Event.containerShutdown) ∧
      (∀ a, (step env (run env sched) a).events.count Event.containerShutdown ≠
          (run env sched).events.count Event.containerShutdown →
        a = .main ∧ (run env sched).mainPc = .deferShutdown) ∧
      ((run env sched).outcome = .running → (run env sched).mainPc = .deferShutdown →
        Event.containerShutdown ∈ (step env (run env sched) .main).events ∧
          (env.containerShutdown = none →
            (runFrom env (run env sched) [.main, .main, .main]).outcome = .exited 0) ∧
          (env.containerShutdown ≠ none →
            (runFrom env (run env sched) [.main, .main]).outcome = .exited 1 ∧
              Event.logFatal .teardown ∈
                (runFrom env (run env sched) [.main, .main]).events)) := by
  have hi := inv_run env sched
  have hle : (run env sched).events.count Event.containerShutdown ≤ 1 := by
    rw [hi.main.teardown_total]
    split <;> omega
  have hweb : env.webShutdown ≠ none → Event.containerShutdown ∉ (run env sched).events := by
    intro hne hc
    have h15 := hi.main.teardown_mem.mp hc
    have := (hi.workers.passed (by omega)).2
    have := hi.workers.shut_err_pc hne
    omega
  refine ⟨hle, ?_, ?_, ?_, ?_, ?_, ?_⟩
  · intro h0
    have hidx := hi.main.exit_zero.mp h0
    refine ⟨?_, hi.main.teardownRet_mem.mpr (by omega), hi.main.cancel_mem.mpr (by omega),
      hi.main.wgWaitRet_mem.mpr (by omega)⟩
    rw [hi.main.teardown_total, if_pos (by omega)]
  · intro h
    have hidx := hi.main.teardown_mem.mp h
    exact ⟨hi.main.wgWaitRet_mem.mpr (by omega), hi.main.cancel_mem.mpr (by omega)⟩
  · intro h hc
    have h15 := hi.main.teardown_mem.mp hc
    rcases h with h | h | h | h
    · exact h (hi.main.router_ok (by omega))
    · exact hweb h hc
    · have := hi.main.router_fatal h
      omega
    · exact hweb (hi.workers.shut_fatal h) hc
  · intro a ha
    rcases teardown_step env (run env sched) a with h | ⟨_, _, _, h⟩
    · exact h
    · rw [h] at ha
      exact absurd ha (by simp)
  · intro a ha
    rcases teardown_step env (run env sched) a with h | ⟨h1, h2, _, _⟩
    · exact absurd h ha
    · exact ⟨h1, h2⟩
  · intro hr hpc
    exact teardown_progress env (run env sched) hr hpc

theorem C2_teardown_on_return_only_witness :
    (run envPlain (startup ++ serve ++ graceful)).events.count Event.containerShutdown = 1 ∧
      Event.containerShutdownRet none ∈ (run envPlain (startup ++ serve ++ graceful)).events ∧
      Event.cancel ∈ (run envPlain (startup ++ serve ++ graceful)).events ∧
      Event.wgWaitRet ∈ (run envPlain (startup ++ serve ++ graceful)).events :=
  (C2_teardown_on_return_only envPlain (startup ++ serve ++ graceful)).2.1 (by decide)

/-- Claim C3 fails when the server shutdown fails first: `Web.Shutdown`
returns an error while `Tasks.Stop` is still running; the process ends with
exit code 1 at once, the task runner's stop has not completed and the barrier
has not released. -/
theorem C3_fatal_before_barrier :
    Event.webShutdownRet (some (.leaf "context deadline exceeded")) ∈
        (run envShutdownError (startup ++ serve ++ shutdownFirst)).events ∧
      (run envShutdownError (startup ++ serve ++ shutdownFirst)).outcome = .exited 1 ∧
      (run envShutdownError (startup ++ serve ++ shutdownFirst)).stopPc = .inCall ∧
      Event.tasksStopRet ∉ (run envShutdownError (startup ++ serve ++ shutdownFirst)).events ∧
      Event.wgWaitRet ∉ (run envShutdownError (startup ++ serve ++ shutdownFirst)).events := by
  decide

/-- Claim C3 as the code has it: in every execution in which `Web.Shutdown`
has returned an error, the process has ended with exit code 1 by the
`log.Fatal` of the shutdown goroutine, and the barrier has not released. -/
theorem C3_shutdown_error_is_fatal (env : Env) (sched : List Action) (e : GoError)
    (h : Event.webShutdownRet (some e) ∈ (run env sched).events) :
    (run env sched).outcome = .exited 1 ∧
      Event.logFatal .webShutdown ∈ (run env sched).events ∧
      Event.wgWaitRet ∉ (run env sched).events := by
  have hi := inv_run env sched
  have hv : some e = env.webShutdown := hi.server.evs_ok _ h
  have hne : env.webShutdown ≠ none := by rw [← hv]; simp
  rw [hv] at h
  obtain ⟨h1, h2⟩ := hi.workers.shutRet_err h hne
  refine ⟨h1, h2, ?_⟩
  intro hw
  have h12 := hi.main.wgWaitRet_mem.mp hw
  have := (hi.workers.passed h12).2
  have := hi.workers.shut_err_pc hne
  omega

theorem C3_shutdown_error_is_fatal_witness :
    (run envShutdownError (startup ++ serve ++ shutdownFirst)).outcome = .exited 1 ∧
      Event.logFatal .webShutdown ∈
        (run envShutdownError (startup ++ serve ++ shutdownFirst)).events ∧
      Event.wgWaitRet ∉ (run envShutdownError (startup ++ serve ++ shutdownFirst)).events :=
  C3_shutdown_error_is_fatal envShutdownError (startup ++ serve ++ shutdownFirst)
    (.leaf "context deadline exceeded") (by decide)

/-- Claim C4: with TLS enabled, when the certificate and key fail to load, no
execution ever calls `StartServer`, an attempted load has ended the process
with exit code 1 by `log.Fatalf`, and the first step of the server goroutine
is that fatal load; when the pair loads, every call of `StartServer` gets the
descriptor of lines 36-42 with a TLS configuration that holds exactly the
loaded certificate, and the server goroutine reaches that call with its
second step. -/
theorem C4_tls_load_before_serve (env : Env) (sched : List Action)
    (ht : env.Config.HTTP.TLS.Enabled = true) :
    (∀ e, env.loadX509KeyPair env.Config.HTTP.TLS.Certificate env.Config.HTTP.TLS.Key
          = .error e →
        (∀ x, Event.startServer x ∉ (run env sched).events) ∧
        (∀ c k, Event.loadX509KeyPair c k ∈ (run env sched).events →
          (run env sched).outcome = .exited 1 ∧
            Event.logFatal .tlsLoad ∈ (run env sched).events) ∧
        ((run env sched).outcome = .running → (run env sched).serverPc = .begin →
          (step env (run env sched) .server).outcome = .exited 1)) ∧
      (∀ cert, env.loadX509KeyPair env.Config.HTTP.TLS.Certificate env.Config.HTTP.TLS.Key
          = .ok cert →
        (∀ x, Event.startServer x ∈ (run env sched).events →
          x = { mkServer env.Config with TLSConfig := some { Certificates := [cert] } }) ∧
        ((run env sched).outcome = .running → (run env sched).serverPc = .begin →
          Event.startServer
              { mkServer env.Config with TLSConfig := some { Certificates := [cert] } } ∈
            (step env (step env (run env sched) .server) .server).events)) := by
  have hi := inv_run env sched
  refine ⟨?_, ?_⟩
  · intro e he
    refine ⟨?_, ?_, ?_⟩
    · intro x h
      obtain ⟨hpc, hx⟩ := (hi.server.start_mem x).mp h
      have hs := hi.server.srv_eq (by omega)
      rw [← hx] at hs
      simp [srvOf, ht, he] at hs
    · intro c k h
      obtain ⟨_, rfl, rfl⟩ := hi.server.evs_ok _ h
      exact hi.server.load_fail h (by simp [Env.loadFails, he])
    · intro ho hpc
      generalize run env sched = s at ho hpc
      obtain ⟨mpc, spc, tpc, upc, srv, ctx, ntf, quit, wg, now, out, tr⟩ := s
      simp only at ho hpc
      subst ho hpc
      simp [step, serverStep, State.emit, State.fatal, ht, he]
  · intro cert hc
    refine ⟨?_, ?_⟩
    · intro x h
      obtain ⟨hpc, hx⟩ := (hi.server.start_mem x).mp h
      have hs := hi.server.srv_eq (by omega)
      rw [← hx] at hs
      simp [srvOf, ht, hc] at hs
      exact hs.symm
    · intro ho hpc
      generalize run env sched = s at ho hpc
      obtain ⟨mpc, spc, tpc, upc, srv, ctx, ntf, quit, wg, now, out, tr⟩ := s
      simp only at ho hpc
      subst ho hpc
      simp [step, serverStep, State.emit, State.fatal, ht, hc]

theorem C4_tls_load_before_serve_witness :
    (step envTLSBroken (run envTLSBroken [.main, .main, .main]) .server).outcome = .exited 1 ∧
      Event.startServer
          { mkServer cfgTLS with TLSConfig := some { Certificates := [{ id := 1 }] } } ∈
        (step envTLS (step envTLS (run envTLS [.main, .main, .main]) .server) .server).events :=
  ⟨((C4_tls_load_before_serve envTLSBroken [.main, .main, .main] rfl).1 _ rfl).2.2
      (by decide) (by decide),
    ((C4_tls_load_before_serve envTLS [.main, .main, .main] rfl).2 _ rfl).2
      (by decide) (by decide)⟩

/-- Claim C5: with TLS disabled, no execution ever calls `tls.LoadX509KeyPair`, and
every call of `StartServer` gets the server descriptor of lines 36-42, whose
TLS configuration is unset; the server goroutine reaches that call with its
second step. -/
theorem C5_tls_disabled_no_certificate (env : Env) (sched : List Action)
    (hd : env.Config.HTTP.TLS.Enabled = false) :
    (∀ c k, Event.loadX509KeyPair c k ∉ (run env sched).events) ∧
      (∀ x, Event.startServer x ∈ (run env sched).events →
        x = mkServer env.Config ∧ x.TLSConfig = none) ∧
      ((run env sched).outcome = .running → (run env sched).serverPc = .begin →
        Event.startServer (mkServer env.Config) ∈
          (step env (step env (run env sched) .server) .server).events) := by
  have hi := inv_run env sched
  refine ⟨?_, ?_, ?_⟩
  · intro c k h
    have := hi.server.evs_ok _ h
    simp [hd] at this
  · intro x h
    obtain ⟨hpc, hx⟩ := (hi.server.start_mem x).mp h
    have hs := hi.server.srv_eq (by omega)
    rw [← hx] at hs
    simp [srvOf, hd] at hs
    subst hs
    exact ⟨rfl, rfl⟩
  · intro ho hpc
    generalize run env sched = s at ho hpc
    obtain ⟨mpc, spc, tpc, upc, srv, ctx, ntf, quit, wg, now, out, tr⟩ := s
    simp only at ho hpc
    subst ho hpc
    simp [step, serverStep, State.emit, hd]

theorem C5_tls_disabled_no_certificate_witness :
    Event.startServer (mkServer envPlain.Config) ∈
      (step envPlain (step envPlain (run envPlain [.main, .main, .main]) .server)
        .server).events :=
  (C5_tls_disabled_no_certificate envPlain [.main, .main, .main] rfl).2.2
    (by decide) (by decide)

/-- Claim C6: when `handlers.BuildRouter` returns an error, no subsystem ever
starts: in every execution the server goroutine is never launched, the task
queues are never registered, the task runner's `Start` and `StartServer` are
never called, and the process does not end with success; once main has taken
its second step the process has ended, with exit code 1 by `log.Fatalf`
unless an interrupt ended it before. -/
theorem C6_router_error_is_fatal_before_start (env : Env) (sched : List Action)
    (e : GoError) (he : env.buildRouter = some e) :
    (run env sched).serverPc = .notStarted ∧
      Event.goServer ∉ (run env sched).events ∧
      Event.register ∉ (run env sched).events ∧
      Event.tasksStart ∉ (run env sched).events ∧
      (∀ x, Event.startServer x ∉ (run env sched).events) ∧
      (run env sched).outcome ≠ .exited 0 ∧
      (2 ≤ sched.count .main →
        (run env sched).outcome = .exited 1 ∨ (run env sched).outcome = .killed) ∧
      (Action.interrupt ∉ sched → 2 ≤ sched.count .main →
        (run env sched).outcome = .exited 1) := by
  have hi := inv_run env sched
  have hidx : (run env sched).mainPc.idx ≤ 1 := by
    by_contra hc
    have := hi.main.router_ok (by omega)
    rw [he] at this
    exact absurd this (by simp)
  have hsrv : (run env sched).serverPc.idx = 0 := by
    have := hi.main.server_launched
    omega
  have hne0 : (run env sched).outcome ≠ .exited 0 := by
    intro h0
    have := hi.main.exit_zero.mp h0
    omega
  have hend : 2 ≤ sched.count .main →
      (run env sched).outcome = .exited 1 ∨ (run env sched).outcome = .killed := by
    intro hc
    cases ho : (run env sched).outcome with
    | running =>
      have hp := router_error_progress env e he sched State.init (by simp [State.init]) ho
      have h0 : State.init.mainPc.idx = 0 := rfl
      rw [h0] at hp
      change (run env sched).mainPc.idx = _ at hp
      omega
    | killed => exact Or.inr rfl
    | exited c =>
      have h1 := hi.main.exit_codes c ho
      have : c ≠ 0 := fun h0 => hne0 (by rw [ho, h0])
      have : c = 1 := by omega
      exact Or.inl (by rw [this])
  refine ⟨?_, ?_, ?_, ?_, ?_, hne0, hend, ?_⟩
  · cases hp : (run env sched).serverPc <;> simp [hp] at hsrv
    rfl
  · intro h; have := hi.main.goServer_mem.mp h; omega
  · intro h; have := hi.main.register_mem.mp h; omega
  · intro h; have := hi.main.tasksStart_mem.mp h; omega
  · intro x h; have := ((hi.server.start_mem x).mp h).1; omega
  · intro hint hc
    rcases hend hc with h | h
    · exact h
    · have := runFrom_killed env sched hint State.init h
      simp [State.init] at this

theorem C6_router_error_is_fatal_before_start_witness :
    (run envRouterError [.main, .main]).outcome = .exited 1 :=
  (C6_router_error_is_fatal_before_start envRouterError [.main, .main] _ rfl).2.2.2.2.2.2.2
    (by decide) (by decide)

/-- Claim C7 fails on the deadline: an interrupt is delivered at time 0, main
receives it from `quit` 3 seconds later and calls `context.WithTimeout` one
nanosecond after that; the deadline of the scope is 10 seconds after that
call, which is neither 10 seconds after the receipt by main nor 10 seconds
after the delivery of the signal. -/
theorem C7_deadline_counts_from_scope_creation :
    (0, Event.sigint) ∈ (run envPlain (startup ++ lateScope)).trace ∧
      (3 * second, Event.recvQuit) ∈ (run envPlain (startup ++ lateScope)).trace ∧
      (3 * second + 1, Event.withTimeout { deadline := 13 * second + 1 }) ∈
        (run envPlain (startup ++ lateScope)).trace ∧
      (run envPlain (startup ++ lateScope)).ctx = some { deadline := 13 * second + 1 } ∧
      (run envPlain (startup ++ lateScope)).ctx ≠
        some { deadline := 3 * second + 10 * second } ∧
      (run envPlain (startup ++ lateScope)).ctx ≠ some { deadline := 0 + 10 * second } := by
  decide

/-- Claim C7 as the code has it: in every execution in which main has
received from `quit`, it has done so exactly once, at most one scope has been
created and `Tasks.Stop` and `Web.Shutdown` have each been called at most
once; a scope that was created, or passed to `Tasks.Stop` or to
`Web.Shutdown`, is the `ctx` of main; the deadline of a scope is 10 seconds
after the call of `context.WithTimeout` that created it, which is not before
the receipt, so the deadline is at least 10 seconds after the receipt; when
the barrier has released, one scope was created and both `Tasks.Stop` and
`Web.Shutdown` were called exactly once, with it; the statement after the
receive creates the scope with the deadline 10 seconds after the current
time; the first step of each shutdown goroutine calls `Tasks.Stop`, or
`Web.Shutdown`, with the `ctx` of main; and while the process runs, main
taking its next four steps and each shutdown goroutine its first leads to one
scope and exactly one call of each of `Tasks.Stop` and `Web.Shutdown`, with
that scope. -/
theorem C7_one_shared_scope (env : Env) (sched : List Action)
    (h : Event.recvQuit ∈ (run env sched).events) :
    (run env sched).events.count Event.recvQuit = 1 ∧
      (run env sched).events.countP Event.isScope ≤ 1 ∧
      (run env sched).events.countP Event.isTasksStop ≤ 1 ∧
      (run env sched).events.countP Event.isWebShutdown ≤ 1 ∧
      (∀ c, Event.withTimeout c ∈ (run env sched).events ∨
          Event.tasksStop c ∈ (run env sched).events ∨
          Event.webShutdown c ∈ (run env sched).events →
        (run env sched).ctx = some c) ∧
      (∀ u c, (u, Event.withTimeout c) ∈ (run env sched).trace →
        c.deadline = u + 10 * second ∧
          ∀ t, (t, Event.recvQuit) ∈ (run env sched).trace →
            t ≤ u ∧ t + 10 * second ≤ c.deadline) ∧
      (Event.wgWaitRet ∈ (run env sched).events →
        ∃ c, (run env sched).ctx = some c ∧
          Event.withTimeout c ∈ (run env sched).events ∧
          Event.tasksStop c ∈ (run env sched).events ∧
          Event.webShutdown c ∈ (run env sched).events ∧
          (run env sched).events.countP Event.isScope = 1 ∧
          (run env sched).events.countP Event.isTasksStop = 1 ∧
          (run env sched).events.countP Event.isWebShutdown = 1) ∧
      ((run env sched).outcome = .running → (run env sched).mainPc = .withTimeout →
        (step env (run env sched) .main).ctx =
          some (withTimeout (run env sched).now (10 * second))) ∧
      ((run env sched).outcome = .running → (run env sched).stopPc = .call →
        ∃ c, (run env sched).ctx = some c ∧
          Event.tasksStop c ∈ (step env (run env sched) .stop).events) ∧
      ((run env sched).outcome = .running → (run env sched).shutdownPc = .call →
        ∃ c, (run env sched).ctx = some c ∧
          Event.webShutdown c ∈ (step env (run env sched) .shutdown).events) ∧
      ((run env sched).outcome = .running →
        ∃ c, (runFrom env (run env sched) launch).ctx = some c ∧
          Event.withTimeout c ∈ (runFrom env (run env sched) launch).events ∧
          Event.tasksStop c ∈ (runFrom env (run env sched) launch).events ∧
          Event.webShutdown c ∈ (runFrom env (run env sched) launch).events ∧
          (runFrom env (run env sched) launch).events.count Event.recvQuit = 1 ∧
          (runFrom env (run env sched) launch).events.countP Event.isScope = 1 ∧
          (runFrom env (run env sched) launch).events.countP Event.isTasksStop = 1 ∧
          (runFrom env (run env sched) launch).events.countP Event.isWebShutdown = 1) := by
  have hi := inv_run env sched
  have ht := invT_run env sched
  have h8 := hi.main.recvQuit_mem.mp h
  refine ⟨?_, ?_, ?_, ?_, ?_, ?_, ?_, ?_, ?_, ?_, ?_⟩
  · rw [hi.main.recv_total, if_pos h8]
  · rw [hi.main.scope_total]
    split <;> omega
  · rw [hi.workers.stop_total]
    split <;> omega
  · rw [hi.workers.shut_total]
    split <;> omega
  · intro c hc
    rcases hc with hc | hc | hc
    · exact ((hi.main.withTimeout_mem c).mp hc).symm
    · exact ((hi.workers.stop_mem c).mp hc).2.symm
    · exact ((hi.workers.shut_mem c).mp hc).2.symm
  · intro u c hu
    have hd := ((ht.scope_time u c).mp hu).2
    refine ⟨hd, ?_⟩
    intro t htr
    have := ht.recv_before u c hu t htr
    exact ⟨this, by omega⟩
  · intro hw
    have h13 := hi.main.wgWaitRet_mem.mp hw
    obtain ⟨h1, h2⟩ := hi.workers.passed h13
    have hctx : (run env sched).ctx ≠ none := fun hn => by
      have := hi.main.ctx_none.mp hn
      omega
    obtain ⟨c, hc⟩ := Option.ne_none_iff_exists.mp hctx
    refine ⟨c, hc.symm, (hi.main.withTimeout_mem c).mpr hc,
      (hi.workers.stop_mem c).mpr ⟨by omega, hc⟩, (hi.workers.shut_mem c).mpr ⟨by omega, hc⟩,
      ?_, ?_, ?_⟩
    · rw [hi.main.scope_total, if_pos (by omega)]
    · rw [hi.workers.stop_total, if_pos (by omega)]
    · rw [hi.workers.shut_total, if_pos (by omega)]
  · intro ho hpc
    generalize run env sched = s at ho hpc
    obtain ⟨mpc, spc, tpc, upc, srv, ctx, ntf, quit, wg, now, out, tr⟩ := s
    simp only at ho hpc
    subst ho hpc
    simp [step, mainStep, State.emit]
  · intro ho hpc
    have hl := hi.main.stop_launched.mp (by rw [hpc]; simp)
    have hctx : (run env sched).ctx ≠ none := fun hn => by
      have := hi.main.ctx_none.mp hn
      omega
    obtain ⟨c, hc⟩ := Option.ne_none_iff_exists.mp hctx
    refine ⟨c, hc.symm, ?_⟩
    generalize run env sched = s at ho hpc hc
    obtain ⟨mpc, spc, tpc, upc, srv, ctx, ntf, quit, wg, now, out, tr⟩ := s
    simp only at ho hpc hc
    subst ho hpc hc
    simp [step, stopStep, State.emit, State.events]
  · intro ho hpc
    have hl := hi.main.shutdown_launched.mp (by rw [hpc]; simp)
    have hctx : (run env sched).ctx ≠ none := fun hn => by
      have := hi.main.ctx_none.mp hn
      omega
    obtain ⟨c, hc⟩ := Option.ne_none_iff_exists.mp hctx
    refine ⟨c, hc.symm, ?_⟩
    generalize run env sched = s at ho hpc hc
    obtain ⟨mpc, spc, tpc, upc, srv, ctx, ntf, quit, wg, now, out, tr⟩ := s
    simp only at ho hpc hc
    subst ho hpc hc
    simp [step, shutdownStep, State.emit, State.events]
  · intro ho
    exact launch_events env (run env sched) hi h8 ho

theorem C7_one_shared_scope_witness :
    ∃ c, (runFrom envPlain (run envPlain (startup ++ [.interrupt, .main])) launch).ctx
          = some c ∧
      Event.withTimeout c ∈
        (runFrom envPlain (run envPlain (startup ++ [.interrupt, .main])) launch).events ∧
      Event.tasksStop c ∈
        (runFrom envPlain (run envPlain (startup ++ [.interrupt, .main])) launch).events ∧
      Event.webShutdown c ∈
        (runFrom envPlain (run envPlain (startup ++ [.interrupt, .main])) launch).events ∧
      (runFrom envPlain (run envPlain (startup ++ [.interrupt, .main])) launch).events.count
        Event.recvQuit = 1 ∧
      (runFrom envPlain (run envPlain (startup ++ [.interrupt, .main])) launch).events.countP
        Event.isScope = 1 ∧
      (runFrom envPlain (run envPlain (startup ++ [.interrupt, .main])) launch).events.countP
        Event.isTasksStop = 1 ∧
      (runFrom envPlain (run envPlain (startup ++ [.interrupt, .main])) launch).events.countP
        Event.isWebShutdown = 1 :=
  (C7_one_shared_scope envPlain (startup ++ [.interrupt, .main])
    (by decide)).2.2.2.2.2.2.2.2.2.2 (by decide)

/-- Claim C8: in every execution in which main has passed `wg.Wait()` at time `w`,
both shutdown goroutines have finished, `Tasks.Stop` and `Web.Shutdown` have
both returned, the latter without error, and for every return time `t` of
`Tasks.Stop` and `u` of `Web.Shutdown` the barrier was passed no earlier than
`max u t`. -/
theorem C8_barrier_waits_for_both (env : Env) (sched : List Action) (w : Nat)
    (h : (w, Event.wgWaitRet) ∈ (run env sched).trace) :
    (run env sched).stopPc = .done ∧ (run env sched).shutdownPc = .done ∧
      Event.tasksStopRet ∈ (run env sched).events ∧
      Event.webShutdownRet none ∈ (run env sched).events ∧
      (∀ r, Event.webShutdownRet r ∈ (run env sched).events → r = none) ∧
      (∀ u t r, (u, Event.webShutdownRet r) ∈ (run env sched).trace →
        (t, Event.tasksStopRet) ∈ (run env sched).trace → max u t ≤ w) := by
  have hi := inv_run env sched
  have ht := invT_run env sched
  have h12 := hi.main.wgWaitRet_mem.mp (mem_events.mpr ⟨w, h⟩)
  obtain ⟨h1, h2⟩ := hi.workers.passed h12
  refine ⟨WorkerPc.eq_done_of_idx h1, WorkerPc.eq_done_of_idx h2,
    hi.workers.stopRet_mem.mpr (by omega), hi.workers.shutRet_mem.mpr (by omega), ?_, ?_⟩
  · intro r hr
    have hv : r = env.webShutdown := hi.server.evs_ok _ hr
    by_contra hne
    have := hi.workers.shut_err_pc (by rw [← hv]; exact hne)
    omega
  · intro u t r hu htt
    exact max_le (ht.wait_shut w h u r hu) (ht.wait_stop w h t htt)

theorem C8_barrier_waits_for_both_witness :
    (9 * second, Event.wgWaitRet) ∈ (run envPlain (startup ++ serve ++ graceful)).trace ∧
      (2 * second, Event.webShutdownRet none) ∈
        (run envPlain (startup ++ serve ++ graceful)).trace ∧
      (9 * second, Event.tasksStopRet) ∈
        (run envPlain (startup ++ serve ++ graceful)).trace ∧
      max (2 * second) (9 * second) ≤ 9 * second :=
  ⟨by decide, by decide, by decide,
    (C8_barrier_waits_for_both envPlain (startup ++ serve ++ graceful) (9 * second)
      (by decide)).2.2.2.2.2 (2 * second) (9 * second) none (by decide) (by decide)⟩

/-- Claim C9: in every execution, whatever the number of interrupts, main
receives from `quit` at most once, a scope is created at most once,
`Tasks.Stop` and `Web.Shutdown` are each called at most once in all, and
`quit` holds at most one signal; before main has received a signal none of
the three has happened, and when the barrier has released each has happened
exactly once.  While main waits at the receive with `quit` empty, a step of
main changes nothing; after `n` interrupts, for every `n` from 1 on, `quit`
holds one signal and main still waits, the next step of main receives it and
empties `quit`, and main taking its next four steps and each shutdown
goroutine its first leads to exactly one receipt, one scope, one call of
`Tasks.Stop` and one call of `Web.Shutdown`.  An interrupt delivered after
main subscribed, when `quit` already holds a signal or main has already
received one, changes nothing but the record of its delivery and, in the
second case, the content of `quit`, which is not read again: whatever the
schedule that follows, the execution is the same with and without it. -/
theorem C9_shutdown_triggered_once (env : Env) (sched : List Action) :
    ((run env sched).events.count Event.recvQuit ≤ 1 ∧
        (run env sched).events.countP Event.isScope ≤ 1 ∧
        (run env sched).events.countP Event.isTasksStop ≤ 1 ∧
        (run env sched).events.countP Event.isWebShutdown ≤ 1 ∧
        (run env sched).quit ≤ 1) ∧
      (Event.recvQuit ∉ (run env sched).events →
        (run env sched).events.countP Event.isScope = 0 ∧
          (run env sched).events.countP Event.isTasksStop = 0 ∧
          (run env sched).events.countP Event.isWebShutdown = 0) ∧
      (Event.wgWaitRet ∈ (run env sched).events →
        (run env sched).events.count Event.recvQuit = 1 ∧
          (run env sched).events.countP Event.isScope = 1 ∧
          (run env sched).events.countP Event.isTasksStop = 1 ∧
          (run env sched).events.countP Event.isWebShutdown = 1) ∧
      ((run env sched).outcome = .running → (run env sched).mainPc = .recvQuit →
        (run env sched).quit = 0 →
        step env (run env sched) .main = run env sched ∧
          ∀ n, 1 ≤ n →
            (runFrom env (run env sched) (List.replicate n .interrupt)).quit = 1 ∧
            (runFrom env (run env sched) (List.replicate n .interrupt)).mainPc = .recvQuit ∧
            (runFrom env (run env sched)
              (List.replicate n .interrupt ++ [.main])).mainPc = .withTimeout ∧
            (runFrom env (run env sched)
              (List.replicate n .interrupt ++ [.main])).quit = 0 ∧
            (runFrom env (run env sched)
              (List.replicate n .interrupt ++ .main :: launch)).events.count
                Event.recvQuit = 1 ∧
            (runFrom env (run env sched)
              (List.replicate n .interrupt ++ .main :: launch)).events.countP
                Event.isScope = 1 ∧
            (runFrom env (run env sched)
              (List.replicate n .interrupt ++ .main :: launch)).events.countP
                Event.isTasksStop = 1 ∧
            (runFrom env (run env sched)
              (List.replicate n .interrupt ++ .main :: launch)).events.countP
                Event.isWebShutdown = 1) ∧
      ((run env sched).notified = true →
        (run env sched).quit ≠ 0 ∨ Event.recvQuit ∈ (run env sched).events →
        ∀ rest, SameButSignals (runFrom env (step env (run env sched) .interrupt) rest)
          (runFrom env (run env sched) rest)) := by
  have hi := inv_run env sched
  have hb1 := WorkerPc.idx_le (run env sched).stopPc
  have hb2 := WorkerPc.idx_le (run env sched).shutdownPc
  refine ⟨⟨?_, ?_, ?_, ?_, hi.main.quit_le⟩, ?_, ?_, ?_, ?_⟩
  · rw [hi.main.recv_total]
    split <;> omega
  · rw [hi.main.scope_total]
    split <;> omega
  · rw [hi.workers.stop_total]
    split <;> omega
  · rw [hi.workers.shut_total]
    split <;> omega
  · intro hn
    have h7 : ¬ 8 ≤ (run env sched).mainPc.idx := fun h => hn (hi.main.recvQuit_mem.mpr h)
    have hs := hi.main.stop_launched
    have hu := hi.main.shutdown_launched
    refine ⟨?_, ?_, ?_⟩
    · rw [hi.main.scope_total, if_neg (by omega)]
    · rw [hi.workers.stop_total, if_neg (by omega)]
    · rw [hi.workers.shut_total, if_neg (by omega)]
  · intro hw
    have h13 := hi.main.wgWaitRet_mem.mp hw
    obtain ⟨h1, h2⟩ := hi.workers.passed h13
    refine ⟨?_, ?_, ?_, ?_⟩
    · rw [hi.main.recv_total, if_pos (by omega)]
    · rw [hi.main.scope_total, if_pos (by omega)]
    · rw [hi.workers.stop_total, if_pos (by omega)]
    · rw [hi.workers.shut_total, if_pos (by omega)]
  · intro ho hpc hq
    have hn := hi.main.notified_iff.mpr (by rw [hpc]; simp)
    refine ⟨?_, ?_⟩
    · generalize run env sched = s at ho hpc hq
      obtain ⟨mpc, spc, tpc, upc, srv, ctx, ntf, quit, wg, now, out, tr⟩ := s
      simp only at ho hpc hq
      subst ho hpc hq
      simp [step, mainStep]
    · intro n hn1
      obtain ⟨m, rfl⟩ : ∃ m, n = m + 1 := ⟨n - 1, by omega⟩
      obtain ⟨g1, g2, g3, g4⟩ := interrupts_buffer env m _ hn ho
      have hin := @inv_runFrom env (List.replicate (m + 1) .interrupt) _ hi
      have hq1 : (runFrom env (run env sched) (List.replicate (m + 1) .interrupt)).quit = 1 := by
        have := hin.main.quit_le
        omega
      have e1 : runFrom env (run env sched) (List.replicate (m + 1) .interrupt ++ [.main]) =
          step env (runFrom env (run env sched) (List.replicate (m + 1) .interrupt)) .main := by
        rw [runFrom_append]; rfl
      have e2 : runFrom env (run env sched)
            (List.replicate (m + 1) .interrupt ++ .main :: launch) =
          runFrom env
            (step env (runFrom env (run env sched) (List.replicate (m + 1) .interrupt)) .main)
            launch := by
        rw [runFrom_append]; rfl
      obtain ⟨r1, r2, _, r4⟩ := recv_step env _ g3 (g4.trans hpc) g1
      obtain ⟨c, _, _, _, _, l5, l6, l7, l8⟩ :=
        launch_events env _ (inv_step .main hin) (by rw [r1]; simp) r2
      rw [e1, e2]
      exact ⟨hq1, g4.trans hpc, r1, by rw [r4, hq1], l5, l6, l7, l8⟩
  · intro hn hq rest
    apply sameButSignals_runFrom
    apply sameButSignals_interrupt env _ hn
    intro h7
    rcases hq with hq | hq
    · exact hq
    · have := hi.main.recvQuit_mem.mp hq
      omega

theorem C9_shutdown_triggered_once_witness :
    ((runFrom envPlain (run envPlain startup) (List.replicate 3 .interrupt)).quit = 1 ∧
      (runFrom envPlain (run envPlain startup) (List.replicate 3 .interrupt)).mainPc
        = .recvQuit ∧
      (runFrom envPlain (run envPlain startup)
        (List.replicate 3 .interrupt ++ [.main])).mainPc = .withTimeout ∧
      (runFrom envPlain (run envPlain startup)
        (List.replicate 3 .interrupt ++ [.main])).quit = 0 ∧
      (runFrom envPlain (run envPlain startup)
        (List.replicate 3 .interrupt ++ .main :: launch)).events.count
          Event.recvQuit = 1 ∧
      (runFrom envPlain (run envPlain startup)
        (List.replicate 3 .interrupt ++ .main :: launch)).events.countP
          Event.isScope = 1 ∧
      (runFrom envPlain (run envPlain startup)
        (List.replicate 3 .interrupt ++ .main :: launch)).events.countP
          Event.isTasksStop = 1 ∧
      (runFrom envPlain (run envPlain startup)
        (List.replicate 3 .interrupt ++ .main :: launch)).events.countP
          Event.isWebShutdown = 1) ∧
      SameButSignals
        (runFrom envPlain (step envPlain (run envPlain (startup ++ [.interrupt])) .interrupt)
          [.main, .interrupt, .main, .main, .main])
        (runFrom envPlain (run envPlain (startup ++ [.interrupt]))
          [.main, .interrupt, .main, .main, .main]) :=
  ⟨((C9_shutdown_triggered_once envPlain startup).2.2.2.1 (by decide) (by decide)
      (by decide)).2 3 (by decide),
    (C9_shutdown_triggered_once envPlain (startup ++ [.interrupt])).2.2.2.2 (by decide)
      (Or.inl (by decide)) _⟩

/-- Claim C10: in every execution, a call of the task runner's `Start` comes after a
completed `tasks.Register`, and no registration comes after it: whenever the
events are `pre`, then `tasksStart`, then `post`, there is a `register` in
`pre` and none in `post`. -/
theorem C10_register_before_start (env : Env) (sched : List Action)
    (pre post : List Event)
    (h : (run env sched).events = pre ++ Event.tasksStart :: post) :
    Event.register ∈ pre ∧ Event.register ∉ post :=
  ordered_runFrom sched (inv_init env) ordered_init pre post h

theorem C10_register_before_start_witness :
    (run envPlain startup).events =
        [Event.newContainer, Event.buildRouter, Event.goServer, Event.register]
          ++ Event.tasksStart :: [Event.notify .Interrupt, Event.notify .Kill] ∧
      Event.register ∈
        [Event.newContainer, Event.buildRouter, Event.goServer, Event.register] ∧
      Event.register ∉ [Event.notify .Interrupt, Event.notify .Kill] :=
  ⟨by decide, C10_register_before_start envPlain startup _ _ (by decide)⟩

end Gotester
